import Mathlib

/-!
Verification of the math.ai retrieval-augmented tutoring pipeline
(repository deep-track/math.ai, directory `AI_logic/`).

The definitions below are shallow embeddings of the Python sources.
`src/engine/orchestrator.py` contains unresolved git merge conflict markers;
the embedded version is the HEAD side of every conflict, which is the side
the cited line ranges (threshold filtering, the Professeur Bio prompts,
`ask_math_ai` and `ask_math_ai_stream`) belong to.

External services (the Anthropic chat/vision client, the Cohere embedding
service, the ChromaDB vector index) are modelled as oracle functions supplied
as arguments; a call that Python may abort with an exception is modelled with
`Except String`.  Distances and embedding coordinates are modelled as
rationals: the code only ever compares them against a threshold, it never
performs floating-point arithmetic whose rounding could matter.
-/

namespace MathAI

/-- Python `str.strip()` with no argument: remove leading and trailing
whitespace (ASCII space, tab, newline, carriage return, vertical tab, form
feed).  Defined structurally over the character list so that it evaluates
inside the kernel. -/
def pyStrip (s : String) : String :=
  let ws : Char → Bool := fun c => c.isWhitespace || c = '\x0b' || c = '\x0c'
  ⟨((s.data.dropWhile ws).reverse.dropWhile ws).reverse⟩

/-- Python slicing `s[:n]`: the first `n` characters, structurally. -/
def pySlice (s : String) (n : Nat) : String :=
  ⟨s.data.take n⟩

namespace Orchestrator

/-- A ChromaDB metadata dict as read by `search_curriculum`:
`meta.get("source", "Unknown")` and `meta.get("page", "?")`, so both
fields may be absent. -/
structure ChunkMeta where
  source : Option String
  page : Option String
deriving DecidableEq

/-- One entry of the structured `sources` list built by `search_curriculum`:
`{"text": doc, "source": source, "page": page}`. -/
structure SourceRef where
  text : String
  source : String
  page : String
deriving DecidableEq

/-- The dict returned by `collection.query(query_texts=[q], n_results=n)`:
per-query parallel lists of documents and metadatas, and an optional
`distances` key. -/
structure QueryReply where
  documents : List (List String)
  metadatas : List (List ChunkMeta)
  distances : Option (List (List ℚ))

/-- The ChromaDB collection handle; `query` may raise (`Except.error`). -/
structure Collection where
  query : String → Nat → Except String QueryReply

/-- The subscript extractions inside `search_curriculum`'s `try` block:
`results["documents"][0]`, `results["metadatas"][0]`,
`results.get("distances", [[]])[0]`.  A missing index is a raised
`IndexError`, which the enclosing `try` catches. -/
def unpackReply (r : QueryReply) : Except String (List String × List ChunkMeta × List ℚ) :=
  match r.documents.head? with
  | none => .error "IndexError: documents[0]"
  | some docs =>
    match r.metadatas.head? with
    | none => .error "IndexError: metadatas[0]"
    | some metas =>
      match r.distances with
      | none => .ok (docs, metas, [])
      | some ds =>
        match ds.head? with
        | none => .error "IndexError: distances[0]"
        | some dl => .ok (docs, metas, dl)

/-- `distance = distances[i] if distances else None` (a Python subscript, so
an out-of-range index on a non-empty list raises). -/
def readDistance (distances : List ℚ) (i : Nat) : Except String (Option ℚ) :=
  if distances.isEmpty then .ok none
  else
    match distances[i]? with
    | none => .error "IndexError: distances[i]"
    | some d => .ok (some d)

/-- The result-filtering loop of `search_curriculum` (HEAD side), parametrised
by the relevance threshold that the source hard-codes as `1.5`.  `i` is the
`enumerate` index; `metadatas[i]` and `distances[i]` are Python subscripts and
raise `IndexError` past the end of the list (these subscripts sit outside the
`try` block, so such an error would propagate). -/
def searchFilterLoop (threshold : ℚ) (metadatas : List ChunkMeta) (distances : List ℚ) :
    List String → Nat → Except String (String × List SourceRef)
  | [], _ => .ok ("", [])
  | doc :: rest, i =>
    match metadatas[i]? with
    | none => .error "IndexError: metadatas[i]"
    | some meta =>
      let source := meta.source.getD "Unknown"
      let page := meta.page.getD "?"
      match readDistance distances i with
      | .error e => .error e
      | .ok dist =>
        if dist.any fun d => decide (threshold < d) then
          searchFilterLoop threshold metadatas distances rest (i + 1)
        else
          match searchFilterLoop threshold metadatas distances rest (i + 1) with
          | .error e => .error e
          | .ok (ctx, srcs) =>
            .ok ("\n--- " ++ source ++ " (p." ++ page ++ ") ---\n" ++ doc ++ "\n" ++ ctx,
              ⟨doc, source, page⟩ :: srcs)

/-- `search_curriculum` (orchestrator.py, HEAD side) with the distance
threshold left as a parameter.  `collection = none` models the module-level
`collection` still being `None`; a failing `query` (or a failing subscript
inside the `try`) is caught and turned into `("", [])`. -/
def search_curriculum_with (threshold : ℚ) (collection : Option Collection)
    (query : String) : Except String (String × List SourceRef) :=
  match collection with
  | none => .ok ("", [])
  | some col =>
    match col.query query 4 >>= unpackReply with
    | .error _ => .ok ("", [])
    | .ok (docs, metas, dists) => searchFilterLoop threshold metas dists docs 0

/-- `search_curriculum` as in the source: threshold `1.5` hard-coded,
`n_results=4`. -/
def search_curriculum (collection : Option Collection) (query : String) :
    Except String (String × List SourceRef) :=
  search_curriculum_with 1.5 collection query

/-- orchestrator.py (HEAD): IMAGE_OCR_PROMPT. -/
def IMAGE_OCR_PROMPT : String := "Transcribe EVERYTHING visible in this image with complete accuracy.\n\nInclude ALL of the following if present:\n- Every word of text, exactly as written\n- All mathematical expressions, equations, and formulas (use standard LaTeX notation)\n- Numbers, variables, symbols, operators, indices, exponents\n- Diagrams described precisely in words (e.g. \"Triangle ABC with angle A = 30°, BC = 5cm\")\n- Table contents row by row with headers\n- Any labels, captions, units, annotations\n- Instructions, question numbers, and sub-parts (a), b), c)...)\n\nOutput ONLY the raw transcribed content. No commentary, no \"I see...\", no preamble."

/-- orchestrator.py (HEAD): the fixed polite refusal block quoted inside SYSTEM_PROMPT. -/
def REFUSAL_MESSAGE : String := "> 🙏 **Je ne peux pas répondre à cette question.**\n> Le contenu de ta question (*[sujet détecté]*) ne figure pas dans les documents\n> officiels de ton programme (MTH1220, MTH1122, PHY1223/Optique géométrique).\n> Vérifie que ta question porte bien sur l'un de ces modules,\n> ou reformule-la pour que je puisse t'aider. 💪"

/-- orchestrator.py (HEAD): SYSTEM_PROMPT, with the refusal block spliced in. -/
def SYSTEM_PROMPT : String := "Tu es **Professeur Bio**, tuteur IA expert pour les étudiants de l'Université du Bénin (niveau L1/L2).\n\n\u2550\u2550\u2550\u2550\u2550\u2550\u2550\u2550\u2550\u2550\u2550\u2550\u2550\u2550\u2550\u2550\u2550\u2550\u2550\u2550\u2550\u2550\u2550\u2550\u2550\u2550\u2550\u2550\u2550\u2550\u2550\u2550\u2550\u2550\u2550\u2550\u2550\u2550\u2550\u2550\u2550\u2550\u2550\u2550\u2550\u2550\u2550\u2550\u2550\u2550\u2550\u2550\u2550\u2550\u2550\u2550\u2550\u2550\u2550\u2550\u2550\u2550\u2550\u2550\u2550\u2550\n⚠️  RÈGLE ABSOLUE — LIS CECI AVANT TOUT\n\u2550\u2550\u2550\u2550\u2550\u2550\u2550\u2550\u2550\u2550\u2550\u2550\u2550\u2550\u2550\u2550\u2550\u2550\u2550\u2550\u2550\u2550\u2550\u2550\u2550\u2550\u2550\u2550\u2550\u2550\u2550\u2550\u2550\u2550\u2550\u2550\u2550\u2550\u2550\u2550\u2550\u2550\u2550\u2550\u2550\u2550\u2550\u2550\u2550\u2550\u2550\u2550\u2550\u2550\u2550\u2550\u2550\u2550\u2550\u2550\u2550\u2550\u2550\u2550\u2550\u2550\n\n\u2550\u2550\u2550\u2550\u2550\u2550\u2550\u2550\u2550\u2550\u2550\u2550\u2550\u2550\u2550\u2550\u2550\u2550\u2550\u2550\u2550\u2550\u2550\u2550\u2550\u2550\u2550\u2550\u2550\u2550\u2550\u2550\u2550\u2550\u2550\u2550\u2550\u2550\u2550\u2550\u2550\u2550\u2550\u2550\u2550\u2550\u2550\u2550\u2550\u2550\u2550\u2550\u2550\u2550\u2550\u2550\u2550\u2550\u2550\u2550\u2550\u2550\u2550\u2550\u2550\u2550\n⚠️  PROTOCOLE DE RÉPONSE ET PRIORISATION DU CONTEXTE\n\u2550\u2550\u2550\u2550\u2550\u2550\u2550\u2550\u2550\u2550\u2550\u2550\u2550\u2550\u2550\u2550\u2550\u2550\u2550\u2550\u2550\u2550\u2550\u2550\u2550\u2550\u2550\u2550\u2550\u2550\u2550\u2550\u2550\u2550\u2550\u2550\u2550\u2550\u2550\u2550\u2550\u2550\u2550\u2550\u2550\u2550\u2550\u2550\u2550\u2550\u2550\u2550\u2550\u2550\u2550\u2550\u2550\u2550\u2550\u2550\u2550\u2550\u2550\u2550\u2550\u2550\nTu es prioritairement guidé par les cinq documents officiels de l'Université du Bénin :\n1. MTH1220 — Structures algébriques\n2. MTH1220 — Structures algébriques et arithmétiques\n3. MTH1122 — Fonctions d'une variable réelle\n4. PHY1223 — Optique générale\n5. Syllabus — Optique géométrique\n\nApplique strictement cette hiérarchie de décision :\n\n1. CONTEXTE PRÉSENT (Succès RAG) : Si le contexte ChromaDB contient l'information, \nréponds en citant le document (ex: \"Selon le module MTH1122...\").\n\n2. CONTEXTE ABSENT MAIS SUJET AU PROGRAMME : Si le contexte fourni est vide ou incomplet, \nmais que la question porte sur un point explicitement listé dans la section \"📚 CURRICULUM OFFICIEL\" ci-dessous \n(ex: dérivée de $x^2$, théorèmes de base), tu DOIS répondre en utilisant tes connaissances.\nNote obligatoire dans ce cas : Précise que tu expliques la méthode \nstandard du cours car l'extrait précis n'est pas ressorti.\n\n3. HORS PROGRAMME TOTAL : Si la question ne figure ni dans le contexte, ni dans la liste du curriculum \n(ex: géopolitique, cuisine, mathématiques de niveau Master 2), tu DÉCLINES poliment avec le message de refus standard.\n\nTu ne génères JAMAIS de contenu pour des modules non listés ici.\n\n\u2550\u2550\u2550\u2550\u2550\u2550\u2550\u2550\u2550\u2550\u2550\u2550\u2550\u2550\u2550\u2550\u2550\u2550\u2550\u2550\u2550\u2550\u2550\u2550\u2550\u2550\u2550\u2550\u2550\u2550\u2550\u2550\u2550\u2550\u2550\u2550\u2550\u2550\u2550\u2550\u2550\u2550\u2550\u2550\u2550\u2550\u2550\u2550\u2550\u2550\u2550\u2550\u2550\u2550\u2550\u2550\u2550\u2550\u2550\u2550\u2550\u2550\u2550\u2550\u2550\u2550\n📚  CURRICULUM OFFICIEL — SUJETS COUVERTS\n\u2550\u2550\u2550\u2550\u2550\u2550\u2550\u2550\u2550\u2550\u2550\u2550\u2550\u2550\u2550\u2550\u2550\u2550\u2550\u2550\u2550\u2550\u2550\u2550\u2550\u2550\u2550\u2550\u2550\u2550\u2550\u2550\u2550\u2550\u2550\u2550\u2550\u2550\u2550\u2550\u2550\u2550\u2550\u2550\u2550\u2550\u2550\u2550\u2550\u2550\u2550\u2550\u2550\u2550\u2550\u2550\u2550\u2550\u2550\u2550\u2550\u2550\u2550\u2550\u2550\u2550\n\n## MODULE 1 — MTH1220 : Structures Algébriques & Arithmétiques\n### Lois de Composition\n- Loi de composition interne (LCI) et externe (LCE)\n- Propriétés : associativité, commutativité, distributivité\n- Élément neutre, élément absorbant, symétrique (inverse)\n- Tables de Cayley\n\n### Groupes\n- Axiomes d'un groupe (G, ·) ; groupe abélien\n- Sous-groupes : définition et critères (critère à une loi)\n- Morphismes : homomorphisme, isomorphisme, automorphisme\n- Noyau (ker) et image (Im) d'un morphisme\n- Théorème de Lagrange ; groupe quotient G/H\n- Groupes cycliques, générateurs, ordre d'un élément\n- Groupe symétrique Sₙ, permutations, transpositions, signature\n\n### Anneaux\n- Axiomes d'un anneau (A, +, ×) ; anneau commutatif, unitaire, intègre\n- Sous-anneaux, idéaux (bilatères, à gauche, à droite)\n- Anneau quotient A/I ; théorème d'isomorphisme\n- Morphismes d'anneaux\n- Anneau de polynômes A[X] : division euclidienne, PGCD dans K[X]\n- Idéaux principaux, anneau principal\n\n### Corps\n- Axiomes d'un corps (K, +, ×) ; sous-corps\n- Corps ℚ, ℝ, ℂ ; corps finis 𝔽ₚ = ℤ/pℤ (p premier)\n- Caractéristique d'un corps\n- Extensions de corps (bases)\n\n### Arithmétique dans ℤ\n- Divisibilité, division euclidienne dans ℤ\n- PGCD, PPCM ; algorithme d'Euclide\n- Identité de Bézout ; théorème de Gauss\n- Nombres premiers ; décomposition en facteurs premiers (th. fondamental)\n- Congruences modulo n ; anneau ℤ/nℤ\n- Théorème chinois des restes (CRT)\n- Indicatrice d'Euler φ(n)\n- Petit théorème de Fermat ; théorème d'Euler\n- Notions de cryptographie (RSA — niveau sensibilisation)\n\n---\n\n## MODULE 2 — MTH1122 : Fonctions d'une Variable Réelle (Analyse)\n### Topologie de ℝ\n- Valeur absolue et distance sur ℝ\n- Intervalles ; voisinages ; points intérieurs, adhérents, frontière\n- Ensembles ouverts et fermés ; compacts dans ℝ\n- Borne supérieure (sup) et inférieure (inf) ; propriété de la borne sup (axiome de complétude)\n\n### Suites Numériques\n- Suites réelles : définition, monotonie, bornitude\n- Limite d'une suite (définition ε-N) ; convergence / divergence\n- Opérations algébriques sur les limites\n- Suites de Cauchy ; critère de Cauchy dans ℝ\n- Théorème de Bolzano-Weierstrass ; suites extraites\n- Suites récurrentes uₙ₊₁ = f(uₙ) : points fixes, convergence\n- Suites arithmétiques et géométriques ; suites équivalentes\n\n### Séries Numériques\n- Définition Σuₙ : sommes partielles, convergence / divergence\n- Critères : comparaison, d'Alembert (ratio), Cauchy (racine), Abel-Dirichlet\n- Séries alternées — critère de Leibniz\n- Convergence absolue vs conditionnelle\n- Séries de Riemann Σ 1/nᵅ\n- Produit de Cauchy de deux séries\n\n### Limites de Fonctions\n- Limite en un point, à gauche/droite, à l'infini (définition ε-δ)\n- Limites remarquables : sin(x)/x → 1, (1+1/n)ⁿ → e, (eˣ−1)/x → 1\n- Théorème des gendarmes (sandwich)\n- Formes indéterminées et levée d'indétermination\n\n### Continuité\n- Continuité en un point et sur un intervalle (définition ε-δ)\n- Continuité à gauche / à droite ; prolongement par continuité\n- Théorème des valeurs intermédiaires (TVI)\n- Théorème de Weierstrass (extrema sur [a,b])\n- Fonctions uniformément continues ; théorème de Heine\n\n### Dérivabilité\n- Taux d'accroissement ; dérivée en un point (définition)\n- Dérivées usuelles : xⁿ, eˣ, ln x, sin x, cos x, tan x, arcsin, arccos, arctan\n- Règles : somme, produit, quotient, composition (chain rule)\n- Théorème de Rolle ; Théorème des accroissements finis (TAF)\n- Règle de L'Hôpital (formes 0/0 et ∞/∞)\n- Dérivées d'ordre n ; formule de Leibniz\n- Extrema locaux : condition nécessaire (f'=0), conditions suffisantes (f'')\n- Convexité, concavité, points d'inflexion\n- Étude complète d'une fonction : domaine, symétries, limites, variations, courbe\n\n### Développements Limités (DL)\n- Formule de Taylor-Young et Taylor-Lagrange (avec reste)\n- Formule de Mac-Laurin ; DL classiques :\n  eˣ, sin x, cos x, ln(1+x), (1+x)ᵅ, arctan x, sh x, ch x\n- DL de fonctions composées, produits, quotients\n- Application : calcul de limites, étude locale, primitivation approchée\n\n### Intégration (si couvert dans MTH1122)\n- Intégrale de Riemann sur [a,b] ; propriétés\n- Théorème fondamental du calcul (primitives)\n- Techniques : IPP (intégration par parties), substitution, fractions rationnelles\n- Intégrales impropres (convergence)\n\n---\n\n## MODULE 3 — PHY1223 & Syllabus : Optique Géométrique & Générale\n### Fondements de l'Optique Géométrique\n- Propagation rectiligne de la lumière ; principe de Fermat\n- Notion de rayon lumineux ; faisceau lumineux\n- Principe de retour inverse de la lumière\n- Notion d'indice de réfraction n = c/v\n\n### Réflexion\n- Lois de Descartes pour la réflexion\n- Miroirs plans : construction d'image, grandissement\n- Miroirs sphériques (concave / convexe) :\n  - Centre C, foyer F, distance focale f\n  - Relation de conjugaison (convention algébrique)\n  - Grandissement transversal γ = OA'/OA\n  - Construction géométrique des images (rayons remarquables)\n\n### Réfraction\n- Lois de Descartes pour la réfraction : n₁ sin θ₁ = n₂ sin θ₂\n- Réflexion totale interne ; angle limite\n- Dioptre plan : profondeur apparente\n- Dioptre sphérique :\n  - Relation de conjugaison (convention de Descartes)\n  - Grandissement\n\n### Lentilles Minces\n- Lentilles convergentes et divergentes ; axes, foyers, distances focales\n- Vergence C = 1/f' (en dioptries)\n- Relation de conjugaison : 1/OA' − 1/OA = 1/f'\n- Grandissement transversal\n- Construction géométrique des images (3 rayons remarquables)\n- Association de lentilles : vergences, distance entre lentilles\n\n### Prismes\n- Définition géométrique ; angle au sommet A\n- Déviation D(i) ; déviation minimale Dₘ\n- Relation fondamentale : n = sin((A+Dₘ)/2) / sin(A/2)\n- Dispersion de la lumière blanche ; indices pour différentes couleurs\n\n### Instruments d'Optique\n- Œil : accommodation, punctum proximum / remotum, vision nette\n- Loupe : grossissement commercial G = D/f' (D = 25 cm)\n- Microscope : objectif + oculaire, grossissement total\n- Lunette astronomique (afocale) : grossissement G = −f'obj/f'oc\n- Notion de limite de résolution (critère de Rayleigh — si couvert)\n\n### Optique Ondulatoire (si couvert dans PHY1223)\n- Nature ondulatoire de la lumière ; longueur d'onde λ, fréquence ν\n- Relation λ = v/ν ; λ dans un milieu d'indice n\n- Cohérence ; différence de marche δ\n- Interférences : Young (fentes), condition de maxima/minima\n- Diffraction : fente simple, réseau de diffraction\n\n\u2550\u2550\u2550\u2550\u2550\u2550\u2550\u2550\u2550\u2550\u2550\u2550\u2550\u2550\u2550\u2550\u2550\u2550\u2550\u2550\u2550\u2550\u2550\u2550\u2550\u2550\u2550\u2550\u2550\u2550\u2550\u2550\u2550\u2550\u2550\u2550\u2550\u2550\u2550\u2550\u2550\u2550\u2550\u2550\u2550\u2550\u2550\u2550\u2550\u2550\u2550\u2550\u2550\u2550\u2550\u2550\u2550\u2550\u2550\u2550\u2550\u2550\u2550\u2550\u2550\u2550\n🎯  COMPORTEMENT ATTENDU\n\u2550\u2550\u2550\u2550\u2550\u2550\u2550\u2550\u2550\u2550\u2550\u2550\u2550\u2550\u2550\u2550\u2550\u2550\u2550\u2550\u2550\u2550\u2550\u2550\u2550\u2550\u2550\u2550\u2550\u2550\u2550\u2550\u2550\u2550\u2550\u2550\u2550\u2550\u2550\u2550\u2550\u2550\u2550\u2550\u2550\u2550\u2550\u2550\u2550\u2550\u2550\u2550\u2550\u2550\u2550\u2550\u2550\u2550\u2550\u2550\u2550\u2550\u2550\u2550\u2550\u2550\n\n## Quand le contexte ChromaDB EST fourni et pertinent\n→ Résous complètement, en t'appuyant EXPLICITEMENT sur ce contexte.\n→ Cite la source : « D'après le cours MTH1122, section… »\n\n## Quand le contexte ChromaDB EST VIDE ou NON PERTINENT\n→ Réponds TOUJOURS ainsi, et rien d'autre :\n\n" ++ REFUSAL_MESSAGE ++ "\n\n## Style pédagogique (quand tu peux répondre)\n- Toujours en français, ton chaleureux et encourageant\n- LaTeX OBLIGATOIRE pour toute formule : inline $...$ ou display $$...$$\n- Structure claire avec titres, étapes numérotées\n- Exemples avec contexte béninois si naturel (marchés, noms locaux...)\n- Termine par une ❓ question de vérification pour l'élève"

/-- orchestrator.py (HEAD): TUTOR_PROMPT static segment 0 (between format slots). -/
def TUTOR_SEG0 : String := "## CONTEXTE DU PROGRAMME (extrait ChromaDB — documents officiels)\n"

/-- orchestrator.py (HEAD): TUTOR_PROMPT static segment 1 (between format slots). -/
def TUTOR_SEG1 : String := "\n\n---\n"

/-- orchestrator.py (HEAD): TUTOR_PROMPT static segment 2 (between format slots). -/
def TUTOR_SEG2 : String := "\n## QUESTION DE L'ÉLÈVE\n"

/-- orchestrator.py (HEAD): TUTOR_PROMPT static segment 3 (between format slots). -/
def TUTOR_SEG3 : String := "\n\n---\n## PROTOCOLE DE RÉPONSE\n\n### ÉTAPE 0 — VÉRIFICATION ET TRIAGE DU CONTEXTE (CRITIQUE)\n\nAnalyse le [CONTEXTE DU PROGRAMME] (ChromaDB) et compare-le à la liste des SUJETS COUVERTS (System Prompt). Détermine ta trajectoire selon ces 4 cas :\n\nCAS 1 : Succès RAG (Sujet présent dans le contexte)\nCondition : Le contexte contient les informations spécifiques nécessaires.\nAction : Résous l'exercice en citant explicitement le document.\nCOMMANDE : CONTINUE.\n\nCAS 2 : Échec RAG (Sujet au programme mais contexte vide)\nCondition : Le contexte est N/A, mais le sujet est explicitement listé dans le curriculum du System Prompt (ex: limites, dérivées, optique).\nAction : Ne refuse pas. Utilise tes connaissances pour répondre. Précise obligatoirement : \"Bien que le passage précis du cours ne me soit pas parvenu, voici la méthode standard enseignée en [Module]...\"\nCOMMANDE : CONTINUE.\n\nCAS 3 : Prérequis (Bases du Lycée)\nCondition : La question porte sur une base fondamentale (ex: identités remarquables, calcul de base, discriminant $\\Delta = b^2 - 4ac$).\nAction : Résous-la brièvement en tant que rappel nécessaire pour la suite.\nCOMMANDE : CONTINUE.\n\nCAS 4 : Hors Programme Total\nCondition : Le sujet est absent du contexte ET absent de la liste des modules (ex: Géographie, Politique, Algèbre Linéaire avancée).\nAction : Applique le message de refus poli défini dans tes instructions.\nCOMMANDE : STOP.\n\n\n\n"

/-- orchestrator.py (HEAD): TUTOR_PROMPT static segment 4 (between format slots). -/
def TUTOR_SEG4 : String := "\n\n### ÉTAPE 1 — ANALYSE\n- Reformule ce que l'élève doit trouver\n- Identifie le **concept clé** (ex : \"Théorème de Rolle\", \"Loi de Snell-Descartes\")\n- Liste les **données** et **inconnues**\n- Annonce la **stratégie de résolution**\n- Cite explicitement la section du cours concernée\n\n### ÉTAPE 2 — RÉSOLUTION DÉTAILLÉE\nRésous étape par étape. Pour chaque étape :\n- **Titre court** en gras\n- Raisonnement complet, aucune étape sautée\n- Toutes formules en LaTeX ($...$ ou $$...$$)\n- Justification explicite (« par le théorème de... », « d'après la définition de... »)\n\n### ÉTAPE 3 — CONCLUSION\n> **Résultat :** $[réponse]$ [unité]\n\n### ÉTAPE 4 — CONSOLIDATION\n- **Prérequis :** 2-3 notions à maîtriser au préalable\n- **Erreur classique 1 :** [piège fréquent]\n- **Erreur classique 2 :** [piège fréquent]\n- **Source :** [document officiel + section]\n- **❓ Question de vérification :** [question simple pour tester la compréhension]\n\n### FORMAT OBLIGATOIRE\n```\n## [Module] — [Concept clé]\n\n### 📋 Analyse\n...\n\n### 🔢 Résolution\n**Étape 1 — [titre]**\n...\n\n### ✅ Conclusion\n> **Résultat :** ...\n\n### 📚 Consolidation\n...\n\n### ❓ Vérifie ta compréhension\n...\n```\n"

/-- orchestrator.py (HEAD): TUTOR_PROMPT.format(context_str, question, image_section, image_recap_instruction). -/
def TUTOR_PROMPT_format (context_str image_section question image_recap_instruction : String) : String :=
  TUTOR_SEG0 ++ context_str ++ TUTOR_SEG1 ++ image_section ++ TUTOR_SEG2 ++ question ++ TUTOR_SEG3 ++ image_recap_instruction ++ TUTOR_SEG4

/-- The attachment dict `{"type": media_type, "image": base64}` passed to
`ask_math_ai` and `extract_image_content`. -/
structure Attachment where
  mediaType : String
  image : String
deriving DecidableEq

/-- The Anthropic client modelled as oracles: `create` is
`messages.create(model=..., system=..., messages=[prompt])` returning
`response.content[0].text`; `vision` is the OCR `messages.create` with an
image block; `stream` is `messages.stream`, yielding its tokens and then
optionally raising.  `Except.error` models a raised exception. -/
structure ClaudeClient where
  create : String → String → Except String String
  vision : Attachment → String → Except String String
  stream : String → String → List String × Option String

/-- orchestrator.py (HEAD): the `image_recap_instruction` literal built inside
`extract_image_content`. -/
def IMAGE_RECAP_INSTRUCTION : String :=
  "### ÉTAPE 0b — RÉCAPITULATIF IMAGE (OBLIGATOIRE si image fournie)\n" ++
  "Commence ta réponse par une section `### 📷 Contenu de l'image` où tu reformules " ++
  "fidèlement le problème extrait de l'image, afin que l'élève puisse vérifier " ++
  "que la lecture OCR est correcte. Si l'OCR semble incomplet ou ambigu, signale-le."

/-- orchestrator.py (HEAD): the f-string `image_section` built inside
`extract_image_content` around the OCR output. -/
def imageSectionOf (extracted : String) : String :=
  "## 📷 CONTENU DE L'IMAGE (OCR automatique)\n```\n" ++ extracted ++ "\n```\n"

/-- `extract_image_content` (HEAD side).  Returns the triple
`(raw_text, image_section, image_recap_instruction)` paired with the number of
vision-model calls issued.  With no attachment or no configured client it
returns `("", "", "")` without calling the model; a raised OCR call is caught
and also yields `("", "", "")`. -/
def extract_image_content (claude_client : Option ClaudeClient)
    (attachment : Option Attachment) : (String × String × String) × Nat :=
  match attachment, claude_client with
  | none, _ => (("", "", ""), 0)
  | some _, none => (("", "", ""), 0)
  | some att, some client =>
    match client.vision att IMAGE_OCR_PROMPT with
    | .error _ => (("", "", ""), 1)
    | .ok raw =>
      let extracted := pyStrip raw
      ((extracted, imageSectionOf extracted, IMAGE_RECAP_INSTRUCTION), 1)

/-- `_build_prompt` (HEAD side): substitutes the context (or the `N/A` marker
when it is blank), the image section, the question and the recap instruction
(or the `Pas d'image` marker when it is empty) into `TUTOR_PROMPT`. -/
def build_prompt (question context_observation image_section
    image_recap_instruction : String) : String :=
  let recap :=
    if image_recap_instruction = "" then "*(Pas d'image fournie — ignore l'étape 0b)*"
    else image_recap_instruction
  TUTOR_PROMPT_format
    (if pyStrip context_observation ≠ "" then context_observation
     else "N/A — aucun contenu pertinent trouvé.")
    image_section question recap

/-- The retrieval query built by `ask_math_ai` / `ask_math_ai_stream` before
calling `search_curriculum` (HEAD side): with an attachment whose OCR text is
non-empty, `(question + "\n" + img_text).strip()` when the question is
non-blank, the OCR text alone otherwise; in every other case the raw
question. -/
def searchQueryOf (question : String) (attachment : Option Attachment)
    (img_text : String) : String :=
  match attachment with
  | none => question
  | some _ =>
    if img_text ≠ "" then
      if pyStrip question ≠ "" then pyStrip (question ++ "\n" ++ img_text) else img_text
    else question

/-- One entry of the `steps` list of the AcademicResponse-shaped dict. -/
structure Step where
  title : String
  explanation : String
  equations : Option (List String)
deriving DecidableEq

/-- The AcademicResponse-shaped dict returned by `ask_math_ai`. -/
structure Response where
  partie : String
  problemStatement : String
  steps : List Step
  conclusion : Option String
  sources : List SourceRef
deriving DecidableEq

/-- `ask_math_ai` (HEAD side).  The result pairs the returned dict with the
number of chat-model (`messages.create`) calls made; `.error` models an
exception propagating out of the retrieval loop (the body wraps only the
model call itself in `try`). -/
def ask_math_ai (claude_client : Option ClaudeClient) (collection : Option Collection)
    (question : String) (history : String) (attachment : Option Attachment) :
    Except String (Response × Nat) :=
  let ((img_text, image_section, image_recap_instruction), _) :=
    extract_image_content claude_client attachment
  let search_query := searchQueryOf question attachment img_text
  match search_curriculum collection search_query with
  | .error e => .error e
  | .ok (context_observation, sources) =>
    match claude_client with
    | none =>
      .ok ({ partie := "Erreur", problemStatement := question,
             steps := [⟨"Unavailable", "ANTHROPIC_API_KEY non configuré.", none⟩],
             conclusion := none, sources := [] }, 0)
    | some client =>
      let prompt :=
        build_prompt question context_observation image_section image_recap_instruction
      match client.create SYSTEM_PROMPT prompt with
      | .ok final_answer =>
        .ok ({ partie := "Mathématiques / Physique", problemStatement := question,
               steps := [⟨"Explication Professeur Bio", final_answer, none⟩],
               conclusion := some "Voir explication ci-dessus", sources := sources }, 1)
      | .error e =>
        .ok ({ partie := "Erreur", problemStatement := question,
               steps := [⟨"Erreur", "Erreur Claude: " ++ e, none⟩],
               conclusion := none, sources := [] }, 1)

/-- The NDJSON lines yielded by `ask_math_ai_stream`, with the JSON encoding
abstracted into a structured event type. -/
inductive StreamEvent where
  | metadata (partie problemStatement : String) (sources : List SourceRef)
  | token (text : String)
  | done (conclusion : String) (sources : List SourceRef)
  | error (message : String)
deriving DecidableEq

/-- `ask_math_ai_stream` (HEAD side): the list of yielded events paired with
the number of chat-model stream calls opened.  A raised stream call yields the
metadata line, the tokens produced so far and then an error line. -/
def ask_math_ai_stream (claude_client : Option ClaudeClient)
    (collection : Option Collection) (question : String) (history : String)
    (attachment : Option Attachment) : Except String (List StreamEvent × Nat) :=
  let ((img_text, image_section, image_recap_instruction), _) :=
    extract_image_content claude_client attachment
  let search_query := searchQueryOf question attachment img_text
  match search_curriculum collection search_query with
  | .error e => .error e
  | .ok (context_observation, sources) =>
    match claude_client with
    | none => .ok ([.error "ANTHROPIC_API_KEY non configuré."], 0)
    | some client =>
      let prompt :=
        build_prompt question context_observation image_section image_recap_instruction
      let (tokens, raised) := client.stream SYSTEM_PROMPT prompt
      .ok (.metadata "Mathématiques / Physique" question sources ::
           (tokens.map .token ++
            match raised with
            | none => [.done "Voir explication ci-dessus" sources]
            | some e => [.error ("Erreur Claude: " ++ e)]), 1)

end Orchestrator


/-- One call to the external Cohere embedding service:
`embed(texts=..., model=..., input_type=...)`.  Both the indexer
(`ingest_curriculum.py`) and the query-time embedding function
(`orchestrator.py`) issue calls of this shape. -/
structure EmbedCall where
  texts : List String
  model : String
  input_type : String
deriving DecidableEq

/-- The Cohere client oracle: `client.embed(...)` returning
`response.embeddings`. -/
structure CohereClient where
  embed : EmbedCall → List (List ℚ)

namespace Orchestrator

/-- The query-time embedding call issued by `CohereEmbeddingFunction.__call__`
(orchestrator.py, HEAD side): `model="embed-multilingual-v3.0"`,
`input_type="search_query"`. -/
def cohereEmbedCall (input : List String) : EmbedCall :=
  { texts := input, model := "embed-multilingual-v3.0", input_type := "search_query" }

/-- `CohereEmbeddingFunction.__call__` (orchestrator.py, HEAD side): with no
client it returns a `[0.0]` vector per input without calling the service;
otherwise it issues exactly one `search_query` embedding call.  The result
pairs the embeddings with the list of calls issued. -/
def CohereEmbeddingFunction_call (client : Option CohereClient)
    (input : List String) : List (List ℚ) × List EmbedCall :=
  match client with
  | none => (input.map fun _ => [0], [])
  | some c => (c.embed (cohereEmbedCall input), [cohereEmbedCall input])

end Orchestrator

namespace Ingest

/-- One chunk object of `processed_curriculum.json` as read by
`run_ingestion`: `item['text']` is read with a mandatory subscript, the other
fields with `.get` defaults. -/
structure Item where
  text : String
  source : Option String
  page : Option Nat
  id : Option String
deriving DecidableEq

/-- The metadata dict `run_ingestion` re-packages per chunk. -/
structure IngestMeta where
  source : String
  page : Nat
  original_id : String
deriving DecidableEq

/-- One `collection.add(documents, embeddings, metadatas, ids)` call. -/
structure AddCall where
  documents : List String
  embeddings : List (List ℚ)
  metadatas : List IngestMeta
  ids : List String
deriving DecidableEq

/-- The external services `run_ingestion` touches: the Cohere embedding call
and the ChromaDB insert, both of which may raise inside the per-batch `try`;
`uuid` supplies the `str(uuid.uuid4())` stream, one value per chunk slot. -/
structure IngestEnv where
  embed : EmbedCall → Except String (List (List ℚ))
  add : AddCall → Except String Unit
  uuid : Nat → String

/-- ingest_curriculum.py: `batch_size = 96`. -/
def batch_size : Nat := 96

/-- The `for i in range(0, total_docs, batch_size): data[i : i + batch_size]`
batching; `fuel` bounds the number of batches (any `fuel ≥ data.length`
gives the loop itself). -/
def batchesF : Nat → List Item → List (List Item)
  | _, [] => []
  | 0, _ :: _ => []
  | fuel + 1, d :: rest =>
    ((d :: rest).take batch_size) :: batchesF fuel ((d :: rest).drop batch_size)

/-- `data[i : i + batch_size]` for `i in range(0, total_docs, batch_size)`. -/
def batches (data : List Item) : List (List Item) :=
  batchesF data.length data

/-- The embedding call `run_ingestion` issues for one batch
(ingest_curriculum.py:77-81): `model='embed-multilingual-v3.0'`,
`input_type='search_document'`. -/
def batchEmbedCall (batch : List Item) : EmbedCall :=
  { texts := batch.map Item.text, model := "embed-multilingual-v3.0",
    input_type := "search_document" }

/-- The re-packaged metadata for one item (ingest_curriculum.py:62-66). -/
def batchMeta (item : Item) : IngestMeta :=
  { source := item.source.getD "unknown", page := item.page.getD 0,
    original_id := item.id.getD "unknown" }

/-- The per-batch loop of `run_ingestion`: embed then add, inside a `try`
whose `except` logs and skips the batch.  Returns the successful `add` calls
and every embedding call issued (a call that raises was still issued). -/
def ingestLoop (env : IngestEnv) : List (List Item) → Nat → List AddCall × List EmbedCall
  | [], _ => ([], [])
  | batch :: rest, counter =>
    let call := batchEmbedCall batch
    let ids := (List.range batch.length).map fun j => env.uuid (counter + j)
    let attempt : Except String AddCall := do
      let embeddings ← env.embed call
      let a : AddCall := { documents := batch.map Item.text, embeddings,
                           metadatas := batch.map batchMeta, ids }
      let _ ← env.add a
      pure a
    let next := ingestLoop env rest (counter + batch.length)
    match attempt with
    | .ok a => (a :: next.1, call :: next.2)
    | .error _ => (next.1, call :: next.2)

/-- `run_ingestion` (ingest_curriculum.py:29-94), from the already-parsed JSON
chunk list. -/
def run_ingestion (env : IngestEnv) (data : List Item) : List AddCall × List EmbedCall :=
  ingestLoop env (batches data) 0

end Ingest

namespace PdfPre

/-- A rasterized page image (the base64 JPEG payload `page_to_base64`
produces for that page). -/
abbrev PageImage := String

/-- The Anthropic OCR oracle: `messages.create` on a `(global_page_num,
image)` pair, returning `response.content[0].text` or raising. -/
structure OcrClient where
  model : Nat × PageImage → Except String String

/-- A langchain `Document(page_content=text, metadata={"page": n})` produced
by scanned-PDF extraction.  (`extract_scanned_pdf` also stamps the constant
`metadata["source"] = pdf_path` on every document, cached or fresh; being
constant per run it is not tracked.) -/
structure PageDoc where
  page : Nat
  text : String
deriving DecidableEq

/-- `extract_text_with_claude` (pdf_preprocessing.py:49-83): one OCR call for
one page; a raised call is caught (logged) and yields `None`, and blank
extracted text also yields `None`. -/
def extract_text_with_claude (client : OcrClient) (page_data : Nat × PageImage) :
    Option PageDoc :=
  match client.model page_data with
  | .error _ => none
  | .ok text => if pyStrip text ≠ "" then some ⟨page_data.1, text⟩ else none

/-- pdf_preprocessing.py: `SPLIT_SIZE = 33`. -/
def SPLIT_SIZE : Nat := 33

/-- The `range(0, total, SPLIT_SIZE)` loop of `_split_pdf`
(pdf_preprocessing.py:87-102): each group holds the pages
`[start, start + SPLIT_SIZE)` together with its start page. -/
def splitGroupsF : Nat → List PageImage → Nat → List (List PageImage × Nat)
  | _, [], _ => []
  | 0, _ :: _, _ => []
  | fuel + 1, p :: rest, start =>
    ((p :: rest).take SPLIT_SIZE, start) ::
      splitGroupsF fuel ((p :: rest).drop SPLIT_SIZE) (start + SPLIT_SIZE)

/-- `_split_pdf`: split the document into `SPLIT_SIZE`-page groups (the fuel
`pdf.length` always suffices, since every step consumes at least one page). -/
def _split_pdf (pdf : List PageImage) : List (List PageImage × Nat) :=
  splitGroupsF pdf.length pdf 0

/-- The global `(page, image)` pairs one group submits to the OCR model:
`page_to_base64` on each local page, then the local → global remap
(pdf_preprocessing.py:111-118). -/
def _extract_split_calls (split : List PageImage) (page_offset : Nat) :
    List (Nat × PageImage) :=
  split.enum.map fun pi => (page_offset + pi.1, pi.2)

/-- `_extract_split` (pdf_preprocessing.py:105-127): OCR every page of the
group and keep the non-`None` documents
(`[doc for doc in documents if doc is not None]`). -/
def _extract_split (client : OcrClient) (split : List PageImage) (page_offset : Nat) :
    List PageDoc :=
  ((_extract_split_calls split page_offset).map (extract_text_with_claude client)).reduceOption

/-- The checkpoint key `f"{pdf_name}::offset_{page_offset:05d}"`, modelled as
the (name, offset) pair it encodes — the zero-padded decimal rendering is
injective for a fixed document name. -/
structure SplitKey where
  name : String
  offset : Nat
deriving DecidableEq

/-- One checkpointed group: the `{str(global_page_number): extracted_text}`
dict in insertion order, the decimal-string key modelled by the page number it
denotes (`str`/`int` are mutually inverse on page numbers). -/
abbrev GroupCache := List (Nat × String)

/-- The progress-file contents: a JSON object in insertion order. -/
abbrev Progress := List (SplitKey × GroupCache)

/-- Python dict lookup: `split_key in progress` and `progress[split_key]`. -/
def Progress.find (progress : Progress) (k : SplitKey) : Option GroupCache :=
  (progress.find? fun e => decide (e.1 = k)).map (fun e => e.2)

/-- The per-group loop of `extract_scanned_pdf` (pdf_preprocessing.py:141-170):
a group whose key is in the progress file is reloaded from its cache
(`Document(page_content=text, metadata={"page": int(page_num_str)})` per
entry, no OCR call); otherwise it is extracted, appended, checkpointed and the
progress saved.  The result is `(all_documents, final progress, OCR calls)`. -/
def extractLoop (client : OcrClient) (pdf_name : String) :
    List (List PageImage × Nat) → Progress → List PageDoc → List (Nat × PageImage) →
    List PageDoc × Progress × List (Nat × PageImage)
  | [], progress, acc, calls => (acc, progress, calls)
  | (split, page_offset) :: rest, progress, acc, calls =>
    let split_key : SplitKey := ⟨pdf_name, page_offset⟩
    match progress.find split_key with
    | some cached =>
      extractLoop client pdf_name rest progress
        (acc ++ cached.map fun pt => ⟨pt.1, pt.2⟩) calls
    | none =>
      let docs := _extract_split client split page_offset
      extractLoop client pdf_name rest
        (progress ++ [(split_key, docs.map fun d => (d.page, d.text))])
        (acc ++ docs) (calls ++ _extract_split_calls split page_offset)

/-- Python `sorted(all_documents, key=lambda d: d.metadata["page"])`: a stable
sort by page, modelled as stable insertion sort (CPython's sort is also
stable). -/
def insertByPage (d : PageDoc) : List PageDoc → List PageDoc
  | [] => [d]
  | e :: es => if d.page < e.page then d :: e :: es else e :: insertByPage d es

/-- Stable sort of the collected documents by page number. -/
def sortByPage (docs : List PageDoc) : List PageDoc :=
  docs.foldr insertByPage []

/-- `extract_scanned_pdf` (pdf_preprocessing.py:130-175) for one document:
run the per-group loop from the given progress-file state, then sort the
collected documents by page. -/
def extract_scanned_pdf (client : OcrClient) (pdf_name : String)
    (pdf : List PageImage) (progress0 : Progress) :
    List PageDoc × Progress × List (Nat × PageImage) :=
  let (docs, progress, calls) := extractLoop client pdf_name (_split_pdf pdf) progress0 [] []
  (sortByPage docs, progress, calls)

/-- The checkpoint entry one group contributes to the progress file:
its key and its `{page: text}` map. -/
def groupEntry (client : OcrClient) (pdf_name : String)
    (p : List PageImage × Nat) : SplitKey × GroupCache :=
  (⟨pdf_name, p.2⟩, (_extract_split client p.1 p.2).map fun d => (d.page, d.text))

/-- A run of `extract_scanned_pdf` on a fresh (empty) progress file that is
interrupted right after the first `n` groups have been checkpointed: the
progress-file contents persisted at that point. -/
def runFirstGroups (client : OcrClient) (pdf_name : String) (pdf : List PageImage)
    (n : Nat) : Progress :=
  (extractLoop client pdf_name ((_split_pdf pdf).take n) [] [] []).2.1

end PdfPre


namespace RespParser

/-- A step dict of the parsed AcademicResponse. -/
structure PStep where
  title : String
  explanation : String
  equations : Option (List String)
deriving DecidableEq

/-- The dict `parse_academic_response` returns.  All four keys are always
present; `conclusion` is `None` exactly on the exception-fallback path. -/
structure Parsed where
  partie : String
  problemStatement : String
  steps : List PStep
  conclusion : Option String
deriving DecidableEq

/-- The `re` searches of `parse_academic_response`, as oracles over the
subject string: each field is the outcome of the corresponding compiled
pattern (`none` = no match; the matcher itself is the Python `re` engine,
external to this repository).  `stepContents` lists `match.group(2)` of every
`ÉTAPE N` match of the `finditer`, in document order. -/
structure ReOracle where
  partieMatch : String → Option String
  problemMatch : String → Option String
  stepContents : String → List String
  conclusionMatch : String → Option String
  latexMatch : String → Option String
  doubleDollar : String → List String
  singleDollar : String → List String

/-- Python `step_content.split('\n', 1)`: the first line and the rest. -/
def splitFirstLine (s : String) : String × String :=
  match s.splitOn "\n" with
  | [] => (s, "")
  | [a] => (a, "")
  | a :: rest => (a, String.intercalate "\n" rest)

/-- `parse_academic_response` (response_parser.py:10-129).  `raised` models an
exception thrown anywhere inside the `try` block: the `except` branch ignores
every piece of partial work, so one flag captures it exactly.  The step list
falls back to a single step built from the first 500 characters of the raw
response when no `ÉTAPE N` section was found. -/
def parse_academic_response (o : ReOracle) (raised : Option String)
    (ai_response question : String) : Parsed :=
  match raised with
  | some _ =>
    { partie := "Analyse", problemStatement := question,
      steps := [⟨"Réponse", ai_response, none⟩], conclusion := none }
  | none =>
    let partie := match o.partieMatch ai_response with
      | some g => pyStrip g
      | none => "Analyse Mathématique"
    let problemStatement := match o.problemMatch ai_response with
      | some g => pyStrip g
      | none => question
    let steps := (o.stepContents ai_response).map fun content =>
      let sc := pyStrip content
      let (l0, l1) := splitFirstLine sc
      let explanation := pyStrip l1
      let equations := o.doubleDollar explanation ++ o.singleDollar explanation
      ({ title := pyStrip l0, explanation,
         equations := if equations = [] then none else some equations } : PStep)
    let conclusion := match o.conclusionMatch ai_response with
      | none => ""
      | some g =>
        let ct := pyStrip g
        match o.latexMatch ct with
        | some l => pyStrip l
        | none => ct
    { partie, problemStatement,
      steps := if steps = [] then [⟨"Analyse", pySlice ai_response 500, none⟩] else steps,
      conclusion := some conclusion }

end RespParser

namespace Chunker

/-- The splitter parameters `load_and_chunk` fixes (extract.py:26-30).
Document text is modelled as a character list. -/
structure SplitterConfig where
  chunk_size : Nat
  chunk_overlap : Nat
  separators : List (List Char)
deriving DecidableEq

/-- extract.py:26-30: `RecursiveCharacterTextSplitter(chunk_size=1000,
chunk_overlap=100, separators=["\n\n", "\n", " ", ""])`. -/
def text_splitter : SplitterConfig :=
  { chunk_size := 1000, chunk_overlap := 100,
    separators := [['\n', '\n'], ['\n'], [' '], []] }

/-- Modelled from the spec: the splitter itself is langchain's
`RecursiveCharacterTextSplitter`, a third-party library that is not part of
this repository; spec §4.1 describes its algorithm and the definitions below
follow those words.  `hardCut` is the final hard character cut into pieces of
at most `size` characters (for `0 < size`). -/
def hardCutF : Nat → Nat → List Char → List (List Char)
  | _, _, [] => []
  | 0, _, _ :: _ => []
  | fuel + 1, size, c :: rest =>
    (c :: rest.take (size - 1)) :: hardCutF fuel size (rest.drop (size - 1))

/-- Modelled from the spec: the final hard character cut into pieces of at
most `size` characters (for `0 < size`); the fuel `text.length` always
suffices since every step consumes at least one character. -/
def hardCut (size : Nat) (text : List Char) : List (List Char) :=
  hardCutF text.length size text

/-- Modelled from the spec: split at every occurrence of the non-empty
separator, dropping the separator.  `cur` is the piece being accumulated,
in reverse. -/
def splitOnSepGo (sep : List Char) (cur : List Char) : List Char → List (List Char)
  | [] => [cur.reverse]
  | c :: rest =>
    if sep.isPrefixOf (c :: rest) && !sep.isEmpty then
      cur.reverse :: splitOnSepGo sep [] ((c :: rest).drop sep.length)
    else
      splitOnSepGo sep (c :: cur) rest
termination_by text => text.length
decreasing_by
  · rename_i h
    simp only [Bool.and_eq_true, Bool.not_eq_true'] at h
    have hlen : 0 < sep.length := by
      cases sep with
      | nil => simp at h
      | cons s ss => simp
    simp only [List.length_drop, List.length_cons]
    omega
  · simp only [List.length_cons]
    omega

/-- Modelled from the spec: split on a separator (the empty separator leaves
the text whole here; the recursive splitter treats it as the hard cut). -/
def splitOnSep (sep : List Char) (text : List Char) : List (List Char) :=
  if sep = [] then [text] else splitOnSepGo sep [] text

/-- Modelled from the spec (§4.1): recursively split on the highest-priority
separator; a piece still longer than the target recurses into the remaining
separators; once the separators are exhausted (or the empty separator is
reached) the piece is hard-cut.  Empty text yields no pieces. -/
def splitPieces (size : Nat) : List (List Char) → List Char → List (List Char)
  | [], [] => []
  | [], c :: cs => if (c :: cs).length ≤ size then [c :: cs] else hardCut size (c :: cs)
  | _ :: _, [] => []
  | sep :: seps, c :: cs =>
    if (c :: cs).length ≤ size then [c :: cs]
    else if sep = [] then hardCut size (c :: cs)
    else (splitOnSep sep (c :: cs)).flatMap (splitPieces size seps)

/-- Modelled from the spec (§4.1): reassemble adjacent pieces into chunks of
at most the target size; a new chunk starts with the trailing
`overlap` characters of the previous chunk whenever they still fit. -/
def mergeGo (size overlap : Nat) (cur : List Char) : List (List Char) → List (List Char)
  | [] => [cur]
  | p :: ps =>
    if cur.length + p.length ≤ size then mergeGo size overlap (cur ++ p) ps
    else
      let tail := cur.drop (cur.length - overlap)
      if tail.length + p.length ≤ size then cur :: mergeGo size overlap (tail ++ p) ps
      else cur :: mergeGo size overlap p ps

/-- Modelled from the spec: merge the split pieces into overlapping chunks. -/
def mergePieces (size overlap : Nat) : List (List Char) → List (List Char)
  | [] => []
  | p :: ps => mergeGo size overlap p ps

/-- Modelled from the spec: the whole chunking of one document's text with the
configured splitter. -/
def chunkText (cfg : SplitterConfig) (text : List Char) : List (List Char) :=
  mergePieces cfg.chunk_size cfg.chunk_overlap
    (splitPieces cfg.chunk_size cfg.separators text)

/-- One output chunk dict of `load_and_chunk` (extract.py:51-57). -/
structure Chunk where
  id : String
  text : List Char
  source : String
  page : Nat
deriving DecidableEq

/-- langchain `split_documents`: split each document's text, inheriting its
metadata (here: the page number). -/
def split_documents (cfg : SplitterConfig) (docs : List (List Char × Nat)) :
    List (List Char × Nat) :=
  docs.flatMap fun d => (chunkText cfg d.1).map fun t => (t, d.2)

/-- The chunk-packaging loop of `load_and_chunk` (extract.py:51-57) for one
PDF, over its already-extracted `(text, page)` documents: chunk with the
configured splitter, then emit
`{"id": f"{name}_chunk{i}", "text": ..., "source": pdf_name, "page": page+1}`. -/
def load_and_chunk_chunks (pdf_name : String) (docs : List (List Char × Nat)) :
    List Chunk :=
  (split_documents text_splitter docs).enum.map fun ic =>
    { id := pdf_name.dropRight 4 ++ "_chunk" ++ toString ic.1,
      text := ic.2.1, source := pdf_name, page := ic.2.2 + 1 }

end Chunker

end MathAI

open MathAI MathAI.Orchestrator MathAI.PdfPre MathAI.Chunker MathAI.RespParser MathAI.Ingest

/-- With no attachment, or an attachment whose OCR text is empty, the
retrieval query is the raw question. -/
theorem searchQueryOf_empty (question : String) (attachment : Option Attachment) :
    searchQueryOf question attachment "" = question := by
  cases attachment <;> simp [searchQueryOf]

/-- C3: for every query, if the vector index is unavailable (the module-level
`collection` is `None`) or the index query raises any exception,
`search_curriculum` returns exactly `("", [])` and propagates no exception. -/
theorem c3_search_failure_returns_empty (query : String) :
    search_curriculum none query = .ok ("", []) ∧
    ∀ (c : Collection) (e : String), c.query query 4 = .error e →
      search_curriculum (some c) query = .ok ("", []) := by
  refine ⟨rfl, fun c e h => ?_⟩
  simp [search_curriculum, search_curriculum_with, h, Bind.bind, Except.bind]

/-- C3 witness: the unavailable index, and a collection whose query raises. -/
theorem c3_search_failure_returns_empty_witness :
    search_curriculum none "recette" = .ok ("", []) ∧
    search_curriculum (some ⟨fun _ _ => .error "boom"⟩) "recette" = .ok ("", []) :=
  ⟨(c3_search_failure_returns_empty "recette").1,
   (c3_search_failure_returns_empty "recette").2 ⟨fun _ _ => .error "boom"⟩ "boom" rfl⟩

/-- C9: (a) with no chat-model client configured, `ask_math_ai` returns the
labelled service-unavailable response and makes zero model calls; (b) when the
chat-model call raises, the raised message is returned as the answer text
(prefixed `Erreur Claude: `) with an empty sources list, after exactly one
model call. -/
theorem c9_model_failure_surfaced (collection : Option Collection)
    (question history : String) (attachment : Option Attachment) :
    (∀ ctx srcs, search_curriculum collection question = .ok (ctx, srcs) →
      ask_math_ai none collection question history attachment =
        .ok ({ partie := "Erreur", problemStatement := question,
               steps := [⟨"Unavailable", "ANTHROPIC_API_KEY non configuré.", none⟩],
               conclusion := none, sources := [] }, 0)) ∧
    (∀ (client : ClaudeClient) (img sec recap ctx : String) (srcs : List SourceRef)
       (n : Nat) (e : String),
       extract_image_content (some client) attachment = ((img, sec, recap), n) →
       search_curriculum collection (searchQueryOf question attachment img) = .ok (ctx, srcs) →
       client.create SYSTEM_PROMPT (build_prompt question ctx sec recap) = .error e →
       ask_math_ai (some client) collection question history attachment =
         .ok ({ partie := "Erreur", problemStatement := question,
                steps := [⟨"Erreur", "Erreur Claude: " ++ e, none⟩],
                conclusion := none, sources := [] }, 1)) := by
  constructor
  · intro ctx srcs hs
    unfold ask_math_ai
    have hq : searchQueryOf question attachment
        (extract_image_content none attachment).1.1 = question := by
      cases attachment <;> simp [extract_image_content, searchQueryOf]
    cases attachment <;> simp [extract_image_content, searchQueryOf] at hq ⊢ <;> simp [hq, hs]
  · intro client img sec recap ctx srcs n e hx hs hc
    unfold ask_math_ai
    rw [hx]
    simp only []
    rw [hs]
    simp [hc]

/-- C9 witness: no client configured, and a client whose chat call raises. -/
theorem c9_model_failure_surfaced_witness :
    (ask_math_ai none none "q" "" none =
      .ok ({ partie := "Erreur", problemStatement := "q",
             steps := [⟨"Unavailable", "ANTHROPIC_API_KEY non configuré.", none⟩],
             conclusion := none, sources := [] }, 0)) ∧
    (ask_math_ai (some ⟨fun _ _ => .error "boom", fun _ _ => .error "x",
        fun _ _ => ([], none)⟩) none "q" "" none =
      .ok ({ partie := "Erreur", problemStatement := "q",
             steps := [⟨"Erreur", "Erreur Claude: boom", none⟩],
             conclusion := none, sources := [] }, 1)) :=
  ⟨(c9_model_failure_surfaced none "q" "" none).1 "" [] rfl,
   (c9_model_failure_surfaced none "q" "" none).2
     ⟨fun _ _ => .error "boom", fun _ _ => .error "x", fun _ _ => ([], none)⟩
     "" "" "" "" [] 0 "boom" rfl rfl rfl⟩

/-- C1 counterexample: empty index (module-level `collection = None`, so the
retrieved context is empty) and the out-of-scope question "recette de
cuisine".  `ask_math_ai` still makes one chat-model call, and its output is
whatever that call returns (here the arbitrary string "BONJOUR"), not the
fixed refusal message: the refusal is delegated to the model via the system
prompt, never short-circuited in code. -/
theorem c1_counterexample :
    (ask_math_ai
        (some ⟨fun _ _ => .ok "BONJOUR", fun _ _ => .error "x", fun _ _ => ([], none)⟩)
        none "recette de cuisine" "" none).toOption.map
      (fun p => (p.1.steps.map Step.explanation, p.2)) = some (["BONJOUR"], 1) ∧
    "BONJOUR" ≠ REFUSAL_MESSAGE := by
  exact ⟨rfl, by decide⟩

/-- C1 (amended): on a request whose retrieved context is empty,
`ask_math_ai` and `ask_math_ai_stream` do NOT short-circuit: each still makes
exactly one chat-model call, whose user prompt substitutes the marker
`N/A — aucun contenu pertinent trouvé.` for the context while the system
prompt carries the fixed polite refusal message as an instruction to the
model; the pipeline's output is whatever that model call returns. -/
theorem c1_empty_context_still_calls_model (client : ClaudeClient)
    (collection : Option Collection) (question history : String)
    (hs : search_curriculum collection question = .ok ("", [])) :
    (ask_math_ai (some client) collection question history none).toOption.map Prod.snd =
      some 1 ∧
    ask_math_ai (some client) collection question history none =
      (match client.create SYSTEM_PROMPT (build_prompt question "" "" "") with
       | .ok a =>
         .ok ({ partie := "Mathématiques / Physique", problemStatement := question,
                steps := [⟨"Explication Professeur Bio", a, none⟩],
                conclusion := some "Voir explication ci-dessus", sources := [] }, 1)
       | .error e =>
         .ok ({ partie := "Erreur", problemStatement := question,
                steps := [⟨"Erreur", "Erreur Claude: " ++ e, none⟩],
                conclusion := none, sources := [] }, 1)) ∧
    (∃ a b, build_prompt question "" "" "" =
        a ++ "N/A — aucun contenu pertinent trouvé." ++ b) ∧
    (∃ a b, SYSTEM_PROMPT = a ++ REFUSAL_MESSAGE ++ b) ∧
    (ask_math_ai_stream (some client) collection question history none).toOption.map
      Prod.snd = some 1 := by
  have h0 : pyStrip "" = "" := rfl
  refine ⟨?_, ?_, ?_, ⟨_, _, rfl⟩, ?_⟩
  · unfold ask_math_ai
    simp only [extract_image_content, searchQueryOf]
    rw [hs]
    cases hc : client.create SYSTEM_PROMPT (build_prompt question "" "" "") <;>
      simp [hc] <;> exact ⟨_, rfl⟩
  · unfold ask_math_ai
    simp only [extract_image_content, searchQueryOf]
    rw [hs]
  · refine ⟨TUTOR_SEG0, TUTOR_SEG1 ++ "" ++ TUTOR_SEG2 ++ question ++ TUTOR_SEG3 ++
      "*(Pas d'image fournie — ignore l'étape 0b)*" ++ TUTOR_SEG4, ?_⟩
    simp [build_prompt, TUTOR_PROMPT_format, h0, String.append_assoc]
  · unfold ask_math_ai_stream
    simp only [extract_image_content, searchQueryOf]
    rw [hs]
    rcases hst : client.stream SYSTEM_PROMPT (build_prompt question "" "" "") with ⟨toks, _ | e⟩ <;>
      simp [hst] <;> exact ⟨_, rfl⟩

/-- C1 witness: a concrete model oracle and empty index. -/
theorem c1_empty_context_still_calls_model_witness :
    ((ask_math_ai (some ⟨fun _ _ => .ok "BONJOUR", fun _ _ => .error "x",
        fun _ _ => ([], none)⟩) none "recette de cuisine" "" none).toOption.map
      Prod.snd = some 1) ∧
    (∃ a b, SYSTEM_PROMPT = a ++ REFUSAL_MESSAGE ++ b) :=
  ⟨(c1_empty_context_still_calls_model
      ⟨fun _ _ => .ok "BONJOUR", fun _ _ => .error "x", fun _ _ => ([], none)⟩
      none "recette de cuisine" "" rfl).1,
   (c1_empty_context_still_calls_model
      ⟨fun _ _ => .ok "BONJOUR", fun _ _ => .error "x", fun _ _ => ([], none)⟩
      none "recette de cuisine" "" rfl).2.2.2.1⟩

/-- C6: for a request with an attachment whose OCR extraction yields
non-empty (stripped) text, (a) the retrieval query passed to
`search_curriculum` is the question concatenated with the OCR text (the OCR
text alone when the question is blank); (b) the answer is the model's output
on the prompt built from the image section; (c) the OCR text is injected
verbatim into that prompt inside the dedicated image-content section; and
(d) the prompt carries the instruction to restate the extracted content
before solving. -/
theorem c6_attachment_ocr_flow (client : ClaudeClient) (collection : Option Collection)
    (question history : String) (att : Attachment) (raw ctx : String)
    (srcs : List SourceRef)
    (hocr : client.vision att IMAGE_OCR_PROMPT = .ok raw)
    (himg : pyStrip raw ≠ "")
    (hsearch : search_curriculum collection
        (searchQueryOf question (some att) (pyStrip raw)) = .ok (ctx, srcs)) :
    searchQueryOf question (some att) (pyStrip raw) =
      (if pyStrip question ≠ "" then pyStrip (question ++ "\n" ++ pyStrip raw)
       else pyStrip raw) ∧
    ask_math_ai (some client) collection question history (some att) =
      (match client.create SYSTEM_PROMPT (build_prompt question ctx
          (imageSectionOf (pyStrip raw)) IMAGE_RECAP_INSTRUCTION) with
       | .ok a => .ok (⟨"Mathématiques / Physique", question,
                       [⟨"Explication Professeur Bio", a, none⟩],
                       some "Voir explication ci-dessus", srcs⟩, 1)
       | .error e => .ok (⟨"Erreur", question,
                          [⟨"Erreur", "Erreur Claude: " ++ e, none⟩], none, []⟩, 1)) ∧
    (∃ a b, build_prompt question ctx (imageSectionOf (pyStrip raw))
        IMAGE_RECAP_INSTRUCTION =
      a ++ ("## 📷 CONTENU DE L'IMAGE (OCR automatique)\n```\n" ++ pyStrip raw
            ++ "\n```\n") ++ b) ∧
    (∃ a b, build_prompt question ctx (imageSectionOf (pyStrip raw))
        IMAGE_RECAP_INSTRUCTION = a ++ IMAGE_RECAP_INSTRUCTION ++ b) := by
  have hrecap : ¬ (IMAGE_RECAP_INSTRUCTION = "") := by decide
  refine ⟨by simp [searchQueryOf, himg], ?_, ?_, ?_⟩
  · unfold ask_math_ai
    simp only [extract_image_content, hocr]
    rw [hsearch]
  · refine ⟨TUTOR_SEG0 ++ (if pyStrip ctx ≠ "" then ctx
        else "N/A — aucun contenu pertinent trouvé.") ++ TUTOR_SEG1,
      TUTOR_SEG2 ++ question ++ TUTOR_SEG3 ++ IMAGE_RECAP_INSTRUCTION ++ TUTOR_SEG4, ?_⟩
    simp [build_prompt, TUTOR_PROMPT_format, imageSectionOf, hrecap, String.append_assoc]
  · refine ⟨TUTOR_SEG0 ++ (if pyStrip ctx ≠ "" then ctx
        else "N/A — aucun contenu pertinent trouvé.") ++ TUTOR_SEG1
        ++ imageSectionOf (pyStrip raw) ++ TUTOR_SEG2 ++ question ++ TUTOR_SEG3,
      TUTOR_SEG4, ?_⟩
    simp [build_prompt, TUTOR_PROMPT_format, hrecap, String.append_assoc]

/-- C6 witness: a concrete attachment, OCR output and empty index. -/
theorem c6_attachment_ocr_flow_witness :
    searchQueryOf "quest" (some ⟨"image/png", "imgdata"⟩) (pyStrip "OCRTEXT") =
      (if pyStrip "quest" ≠ "" then pyStrip ("quest" ++ "\n" ++ pyStrip "OCRTEXT")
       else pyStrip "OCRTEXT") ∧
    (∃ a b, build_prompt "quest" "" (imageSectionOf (pyStrip "OCRTEXT"))
        IMAGE_RECAP_INSTRUCTION =
      a ++ ("## 📷 CONTENU DE L'IMAGE (OCR automatique)\n```\n" ++ pyStrip "OCRTEXT"
            ++ "\n```\n") ++ b) :=
  ⟨(c6_attachment_ocr_flow
      ⟨fun _ _ => .ok "ANS", fun _ _ => .ok "OCRTEXT", fun _ _ => ([], none)⟩
      none "quest" "" ⟨"image/png", "imgdata"⟩ "OCRTEXT" "" []
      rfl (by decide) rfl).1,
   (c6_attachment_ocr_flow
      ⟨fun _ _ => .ok "ANS", fun _ _ => .ok "OCRTEXT", fun _ _ => ([], none)⟩
      none "quest" "" ⟨"image/png", "imgdata"⟩ "OCRTEXT" "" []
      rfl (by decide) rfl).2.2.1⟩

/-- Both branches of the per-batch `try` record the embedding call that was
issued for the batch. -/
theorem ingestLoop_snd (env : IngestEnv) (b : List Item) (rest : List (List Item))
    (counter : Nat) :
    (ingestLoop env (b :: rest) counter).2 =
      batchEmbedCall b :: (ingestLoop env rest (counter + b.length)).2 := by
  simp only [ingestLoop]
  split <;> rfl

/-- C5: every indexing-time embedding call is issued with
`input_type='search_document'`, every query-time embedding call with
`input_type='search_query'`, and both with the model identifier
`embed-multilingual-v3.0`. -/
theorem c5_embedding_input_types :
    (∀ (env : IngestEnv) (data : List Item) (c : EmbedCall),
       c ∈ (run_ingestion env data).2 →
       c.model = "embed-multilingual-v3.0" ∧ c.input_type = "search_document") ∧
    (∀ (client : Option CohereClient) (input : List String) (c : EmbedCall),
       c ∈ (CohereEmbeddingFunction_call client input).2 →
       c.model = "embed-multilingual-v3.0" ∧ c.input_type = "search_query") := by
  constructor
  · intro env data c hc
    have key : ∀ (bs : List (List Item)) (counter : Nat),
        c ∈ (ingestLoop env bs counter).2 → ∃ b, c = batchEmbedCall b := by
      intro bs
      induction bs with
      | nil => intro counter h; simp [ingestLoop] at h
      | cons b rest ih =>
        intro counter h
        rw [ingestLoop_snd] at h
        rcases List.mem_cons.mp h with h | h
        · exact ⟨b, h⟩
        · exact ih _ h
    rcases key (batches data) 0 hc with ⟨b, rfl⟩
    exact ⟨rfl, rfl⟩
  · intro client input c hc
    cases client with
    | none => simp [CohereEmbeddingFunction_call] at hc
    | some cl =>
      simp only [CohereEmbeddingFunction_call, List.mem_singleton] at hc
      subst hc
      exact ⟨rfl, rfl⟩

/-- C5 witness: a one-chunk ingestion and a one-text query embedding. -/
theorem c5_embedding_input_types_witness :
    ((batchEmbedCall [⟨"t", none, none, none⟩]).model = "embed-multilingual-v3.0" ∧
     (batchEmbedCall [⟨"t", none, none, none⟩]).input_type = "search_document") ∧
    ((cohereEmbedCall ["q"]).model = "embed-multilingual-v3.0" ∧
     (cohereEmbedCall ["q"]).input_type = "search_query") :=
  ⟨c5_embedding_input_types.1 ⟨fun _ => .ok [], fun _ => .ok (), fun _ => ""⟩
     [⟨"t", none, none, none⟩] (batchEmbedCall [⟨"t", none, none, none⟩]) (by decide),
   c5_embedding_input_types.2 (some ⟨fun _ => []⟩) ["q"] (cohereEmbedCall ["q"])
     (by decide)⟩

/-- C10: `parse_academic_response` is total (the embedding returns a value for
every oracle outcome, including a raised exception) and always returns all
four keys with a non-empty step list: when no `ÉTAPE N` section matches, the
steps fall back to a single step built from the first 500 characters of the
raw response, and on the exception path to a single step holding the whole
raw response. -/
theorem c10_parser_total_structure (o : ReOracle) (raised : Option String)
    (ai_response question : String) :
    (parse_academic_response o raised ai_response question).steps ≠ [] ∧
    (raised = none → o.stepContents ai_response = [] →
      (parse_academic_response o raised ai_response question).steps =
        [⟨"Analyse", pySlice ai_response 500, none⟩]) ∧
    (∀ e, raised = some e →
      parse_academic_response o raised ai_response question =
        ⟨"Analyse", question, [⟨"Réponse", ai_response, none⟩], none⟩) := by
  rcases raised with _ | e
  · refine ⟨?_, fun _ hsc => by simp [parse_academic_response, hsc], by simp⟩
    rcases hsc : o.stepContents ai_response with _ | ⟨s, ss⟩ <;>
      simp [parse_academic_response, hsc]
  · exact ⟨by simp [parse_academic_response], by simp,
      fun e' he => by simp [parse_academic_response]⟩

/-- C10 witness: an oracle with no matches at all, on a short raw response. -/
theorem c10_parser_total_structure_witness :
    (parse_academic_response ⟨fun _ => none, fun _ => none, fun _ => [],
        fun _ => none, fun _ => none, fun _ => [], fun _ => []⟩
      none "raw" "q").steps ≠ [] ∧
    (parse_academic_response ⟨fun _ => none, fun _ => none, fun _ => [],
        fun _ => none, fun _ => none, fun _ => [], fun _ => []⟩
      none "raw" "q").steps = [⟨"Analyse", pySlice "raw" 500, none⟩] :=
  ⟨(c10_parser_total_structure ⟨fun _ => none, fun _ => none, fun _ => [],
      fun _ => none, fun _ => none, fun _ => [], fun _ => []⟩ none "raw" "q").1,
   (c10_parser_total_structure ⟨fun _ => none, fun _ => none, fun _ => [],
      fun _ => none, fun _ => none, fun _ => [], fun _ => []⟩ none "raw" "q").2.1
     rfl rfl⟩

/-- Membership in a group's extraction output: exactly the successfully
OCR'd pages, at their global page numbers. -/
theorem mem_extract_split {client : OcrClient} {split : List PageImage}
    {page_offset : Nat} {d : PageDoc} :
    d ∈ _extract_split client split page_offset ↔
      ∃ i img, split[i]? = some img ∧
        extract_text_with_claude client (page_offset + i, img) = some d := by
  unfold _extract_split _extract_split_calls
  rw [List.reduceOption_mem_iff]
  constructor
  · intro h
    rcases List.mem_map.mp h with ⟨pair, hpair, hx⟩
    rcases List.mem_map.mp hpair with ⟨q, hq, rfl⟩
    exact ⟨q.1, q.2, List.mem_enum_iff_getElem?.mp hq, hx⟩
  · rintro ⟨i, img, hi, hx⟩
    exact List.mem_map.mpr ⟨(page_offset + i, img),
      List.mem_map.mpr ⟨(i, img), List.mem_enum_iff_getElem?.mpr hi, rfl⟩, hx⟩

/-- C8: when the OCR of one page of a group raises, that exception is caught
and only that page is dropped: no document with the failing page's global
number appears in the group's output, while every other page whose extraction
succeeds with non-blank text still yields its document — the rest of the
group completes. -/
theorem c8_page_failure_drops_only_that_page (client : OcrClient)
    (split : List PageImage) (page_offset p : Nat) (img : PageImage) (e : String)
    (hp : split[p]? = some img)
    (hfail : client.model (page_offset + p, img) = .error e) :
    (∀ d ∈ _extract_split client split page_offset, d.page ≠ page_offset + p) ∧
    (∀ (q : Nat) (imgq : PageImage) (t : String), split[q]? = some imgq →
       client.model (page_offset + q, imgq) = .ok t → pyStrip t ≠ "" →
       (⟨page_offset + q, t⟩ : PageDoc) ∈ _extract_split client split page_offset) := by
  constructor
  · intro d hd hpage
    rcases mem_extract_split.mp hd with ⟨i, img', hi, hx⟩
    have hip : i = p := by
      have : d.page = page_offset + i := by
        unfold extract_text_with_claude at hx
        rcases hmod : client.model (page_offset + i, img') with e' | t <;>
          rw [hmod] at hx <;> dsimp only at hx
        · cases hx
        · by_cases ht : pyStrip t ≠ ""
          · rw [if_pos ht] at hx
            cases hx
            rfl
          · simp [ht] at hx
      omega
    subst hip
    have himg : img' = img := by
      rw [hp] at hi
      exact (Option.some_injective _ hi).symm
    rw [himg] at hx
    unfold extract_text_with_claude at hx
    rw [hfail] at hx
    cases hx
  · intro q imgq t hq hok ht
    refine mem_extract_split.mpr ⟨q, imgq, hq, ?_⟩
    unfold extract_text_with_claude
    rw [hok]
    simp [ht]

/-- C8 witness: page 1 of a three-page group raises; page 2 still comes out. -/
theorem c8_page_failure_drops_only_that_page_witness :
    (⟨0 + 2, "T2"⟩ : PageDoc) ∈ _extract_split
      ⟨fun pi => if pi.1 = 1 then .error "efail" else .ok ("T" ++ toString pi.1)⟩
      ["i0", "i1", "i2"] 0 :=
  (c8_page_failure_drops_only_that_page
      ⟨fun pi => if pi.1 = 1 then .error "efail" else .ok ("T" ++ toString pi.1)⟩
      ["i0", "i1", "i2"] 0 1 "i1" "efail" (by decide) rfl).2
    2 "i2" "T2" (by decide) rfl (by decide)

/-- Every source kept by the filtering loop originates at an index whose
reported distance (when distances were reported at all) is at or below the
threshold. -/
theorem searchFilterLoop_kept_le (t : ℚ) (metadatas : List ChunkMeta) (distances : List ℚ) :
    ∀ (docs : List String) (i : Nat) (ctx : String) (srcs : List SourceRef),
      searchFilterLoop t metadatas distances docs i = .ok (ctx, srcs) →
      ∀ s ∈ srcs, distances = [] ∨
        ∃ j d, i ≤ j ∧ distances[j]? = some d ∧ d ≤ t ∧ docs[j - i]? = some s.text := by
  intro docs
  induction docs with
  | nil =>
    intro i ctx srcs h s hs
    rw [searchFilterLoop] at h
    cases h
    cases hs
  | cons doc rest ih =>
    intro i ctx srcs h s hs
    rw [searchFilterLoop] at h
    rcases hmeta : metadatas[i]? with _ | meta <;> rw [hmeta] at h <;> dsimp only at h
    · cases h
    · rcases hdr : readDistance distances i with e | dist <;> rw [hdr] at h <;> dsimp only at h
      · cases h
      · by_cases hfil : (dist.any fun d => decide (t < d)) = true
        · rw [if_pos hfil] at h
          exact ih (i + 1) ctx srcs h s hs |>.imp id
            (fun ⟨j, d, hij, hjd, hdt, hget⟩ => ⟨j, d, by omega, hjd, hdt, by
              have hsh : j - i = (j - (i + 1)) + 1 := by omega
              rw [hsh, List.getElem?_cons_succ]
              exact hget⟩)
        · rw [if_neg hfil] at h
          rcases hrec : searchFilterLoop t metadatas distances rest (i + 1) with e | p <;>
            rw [hrec] at h <;> dsimp only at h
          · cases h
          · rcases p with ⟨ctx2, srcs2⟩
            dsimp only at h
            cases h
            rcases List.mem_cons.mp hs with rfl | hs2
            · rcases hemp : distances.isEmpty with _ | _
              · -- distances non-empty: the reported distance passed the filter
                rw [readDistance, if_neg (by simp [hemp])] at hdr
                rcases hd : distances[i]? with _ | d <;> rw [hd] at hdr
                · cases hdr
                · cases hdr
                  refine Or.inr ⟨i, d, le_refl i, hd, ?_, by simp⟩
                  have : decide (t < d) = false := by simpa [Option.any] using hfil
                  exact le_of_not_lt (by simpa using this)
              · exact Or.inl (List.isEmpty_iff.mp hemp)
            · exact ih (i + 1) ctx2 srcs2 hrec s hs2 |>.imp id
                (fun ⟨j, d, hij, hjd, hdt, hget⟩ => ⟨j, d, by omega, hjd, hdt, by
                  have hsh : j - i = (j - (i + 1)) + 1 := by omega
                  rw [hsh, List.getElem?_cons_succ]
                  exact hget⟩)

/-- The filtering loop keeps at least as many results under a larger
threshold: the meta/distance reads do not depend on the threshold, and a
result kept at the smaller threshold is kept at the larger one. -/
theorem searchFilterLoop_mono (t t' : ℚ) (ht : t ≤ t')
    (metadatas : List ChunkMeta) (distances : List ℚ) :
    ∀ (docs : List String) (i : Nat) (ctx : String) (srcs : List SourceRef)
      (ctx' : String) (srcs' : List SourceRef),
      searchFilterLoop t metadatas distances docs i = .ok (ctx, srcs) →
      searchFilterLoop t' metadatas distances docs i = .ok (ctx', srcs') →
      srcs.length ≤ srcs'.length := by
  intro docs
  induction docs with
  | nil =>
    intro i ctx srcs ctx' srcs' h h'
    rw [searchFilterLoop] at h h'
    cases h
    cases h'
    exact le_refl _
  | cons doc rest ih =>
    intro i ctx srcs ctx' srcs' h h'
    rw [searchFilterLoop] at h h'
    rcases hmeta : metadatas[i]? with _ | meta <;> rw [hmeta] at h h' <;> dsimp only at h h'
    · cases h
    · rcases hdr : readDistance distances i with e | dist <;> rw [hdr] at h h' <;>
        dsimp only at h h'
      · cases h
      · by_cases hfil : (dist.any fun d => decide (t < d)) = true
        · -- skipped at the smaller threshold
          rw [if_pos hfil] at h
          by_cases hfil' : (dist.any fun d => decide (t' < d)) = true
          · rw [if_pos hfil'] at h'
            exact ih (i + 1) ctx srcs ctx' srcs' h h'
          · rw [if_neg hfil'] at h'
            rcases hrec' : searchFilterLoop t' metadatas distances rest (i + 1) with e | p <;>
              rw [hrec'] at h' <;> dsimp only at h'
            · cases h'
            · rcases p with ⟨ctx2, srcs2⟩
              dsimp only at h'
              cases h'
              have := ih (i + 1) ctx srcs ctx2 srcs2 h hrec'
              simpa using Nat.le_succ_of_le this
        · -- kept at the smaller threshold: also kept at the larger one
          have hfil' : ¬ ((dist.any fun d => decide (t' < d)) = true) := by
            intro hcon
            apply hfil
            rcases dist with _ | d
            · simp [Option.any] at hcon
            · have : t' < d := by simpa [Option.any] using hcon
              simpa [Option.any] using lt_of_le_of_lt ht this
          rw [if_neg hfil] at h
          rw [if_neg hfil'] at h'
          rcases hrec : searchFilterLoop t metadatas distances rest (i + 1) with e | p <;>
            rw [hrec] at h <;> dsimp only at h
          · cases h
          · rcases hrec' : searchFilterLoop t' metadatas distances rest (i + 1) with e | p' <;>
              rw [hrec'] at h' <;> dsimp only at h'
            · cases h'
            · rcases p with ⟨ctx2, srcs2⟩
              rcases p' with ⟨ctx3, srcs3⟩
              dsimp only at h h'
              cases h
              cases h'
              simpa using ih (i + 1) ctx2 srcs2 ctx3 srcs3 hrec hrec'

/-- C2: `search_curriculum` is the threshold-1.5 instance of the parametric
filter; no returned source has a reported distance above `1.5` (a result over
the threshold is dropped entirely, not ranked lower), and for the same query
a lower threshold never yields more results than a higher one. -/
theorem c2_threshold_filter :
    (∀ (collection : Option Collection) (query : String),
       search_curriculum collection query = search_curriculum_with 1.5 collection query) ∧
    (∀ (col : Collection) (query : String) (docs : List String)
       (metas : List ChunkMeta) (dists : List ℚ) (ctx : String) (srcs : List SourceRef),
       col.query query 4 >>= unpackReply = .ok (docs, metas, dists) →
       search_curriculum (some col) query = .ok (ctx, srcs) →
       ∀ s ∈ srcs, dists = [] ∨
         ∃ (j : Nat) (d : ℚ), dists[j]? = some d ∧ d ≤ 1.5 ∧ docs[j]? = some s.text) ∧
    (∀ (t t' : ℚ), t ≤ t' →
       ∀ (col : Collection) (query : String) (ctx : String) (srcs : List SourceRef)
         (ctx' : String) (srcs' : List SourceRef),
       search_curriculum_with t (some col) query = .ok (ctx, srcs) →
       search_curriculum_with t' (some col) query = .ok (ctx', srcs') →
       srcs.length ≤ srcs'.length) := by
  refine ⟨fun _ _ => rfl, ?_, ?_⟩
  · intro col query docs metas dists ctx srcs hq hs s hmem
    rw [search_curriculum, search_curriculum_with] at hs
    rw [hq] at hs
    rcases searchFilterLoop_kept_le 1.5 metas dists docs 0 ctx srcs hs s hmem with
      hl | ⟨j, d, _, hjd, hdt, hget⟩
    · exact Or.inl hl
    · exact Or.inr ⟨j, d, hjd, hdt, by simpa using hget⟩
  · intro t t' ht col query ctx srcs ctx' srcs' h h'
    rw [search_curriculum_with] at h h'
    rcases hq : col.query query 4 >>= unpackReply with e | trip <;> rw [hq] at h h'
    · cases h
      cases h'
      exact le_refl _
    · rcases trip with ⟨docs, metas, dists⟩
      dsimp only at h h'
      exact searchFilterLoop_mono t t' ht metas dists docs 0 ctx srcs ctx' srcs' h h'


/-- C2 witness: one query with reported distances `[1, 2]`; at threshold 1.5
only the first document survives, and the threshold-1 run returns no more
results than the threshold-2 run. -/
theorem c2_threshold_filter_witness :
    (([1, 2] : List ℚ) = [] ∨
      ∃ (j : Nat) (d : ℚ), (([1, 2] : List ℚ))[j]? = some d ∧ d ≤ 1.5 ∧
        ((["d0", "d1"] : List String))[j]? = some "d0") ∧
    ([(⟨"d0", "s0", "1"⟩ : SourceRef)].length ≤
      [(⟨"d0", "s0", "1"⟩ : SourceRef), ⟨"d1", "Unknown", "?"⟩].length) :=
  ⟨c2_threshold_filter.2.1 ⟨fun _ _ => .ok ⟨[["d0", "d1"]],
        [[⟨some "s0", some "1"⟩, ⟨none, none⟩]], some [[1, 2]]⟩⟩ "q"
      ["d0", "d1"] [⟨some "s0", some "1"⟩, ⟨none, none⟩] [1, 2]
      "\n--- s0 (p.1) ---\nd0\n" [⟨"d0", "s0", "1"⟩] rfl
      (by norm_num [search_curriculum, search_curriculum_with, searchFilterLoop,
        unpackReply, readDistance, Bind.bind, Except.bind]; rfl)
      ⟨"d0", "s0", "1"⟩ (by simp),
   c2_threshold_filter.2.2 1 2 (by norm_num) ⟨fun _ _ => .ok ⟨[["d0", "d1"]],
        [[⟨some "s0", some "1"⟩, ⟨none, none⟩]], some [[1, 2]]⟩⟩ "q"
      "\n--- s0 (p.1) ---\nd0\n" [⟨"d0", "s0", "1"⟩]
      ("\n--- s0 (p.1) ---\nd0\n" ++ "\n--- Unknown (p.?) ---\nd1\n")
      [⟨"d0", "s0", "1"⟩, ⟨"d1", "Unknown", "?"⟩]
      (by norm_num [search_curriculum_with, searchFilterLoop,
        unpackReply, readDistance, Bind.bind, Except.bind]; rfl)
      (by norm_num [search_curriculum_with, searchFilterLoop,
        unpackReply, readDistance, Bind.bind, Except.bind]; rfl)⟩

/-- Every group offset produced by the split loop is at least the loop's
starting offset. -/
theorem splitGroupsF_offset_le :
    ∀ (fuel : Nat) (pdf : List PageImage) (start : Nat) (s : List PageImage) (o : Nat),
      (s, o) ∈ splitGroupsF fuel pdf start → start ≤ o := by
  intro fuel
  induction fuel with
  | zero =>
    intro pdf start s o h
    cases pdf <;> simp [splitGroupsF] at h
  | succ fuel ih =>
    intro pdf start s o h
    cases pdf with
    | nil => simp [splitGroupsF] at h
    | cons p rest =>
      rw [splitGroupsF] at h
      rcases List.mem_cons.mp h with h | h
      · cases h
        exact le_refl _
      · have := ih _ _ _ _ h
        omega

/-- The group offsets of a split document are pairwise distinct. -/
theorem splitGroupsF_offsets_nodup :
    ∀ (fuel : Nat) (pdf : List PageImage) (start : Nat),
      ((splitGroupsF fuel pdf start).map Prod.snd).Nodup := by
  intro fuel
  induction fuel with
  | zero => intro pdf start; cases pdf <;> simp [splitGroupsF]
  | succ fuel ih =>
    intro pdf start
    cases pdf with
    | nil => simp [splitGroupsF]
    | cons p rest =>
      rw [splitGroupsF]
      rw [List.map_cons, List.nodup_cons]
      refine ⟨?_, ih _ _⟩
      intro hmem
      rcases List.mem_map.mp hmem with ⟨⟨s, o⟩, hso, ho⟩
      have h1 := splitGroupsF_offset_le _ _ _ _ _ hso
      have h2 : SPLIT_SIZE = 33 := rfl
      dsimp at ho
      omega

/-- Dict lookup over the concatenation of two progress states. -/
theorem progress_find_append (a b : Progress) (k : SplitKey) :
    Progress.find (a ++ b) k =
      match Progress.find a k with
      | some v => some v
      | none => Progress.find b k := by
  unfold Progress.find
  rw [List.find?_append]
  rcases h : List.find? (fun e => decide (e.1 = k)) a with _ | v <;> rw [h] <;>
    simp [Option.or]

/-- Writing a group's documents into the checkpoint as `{page: text}` and
reading them back reconstructs the same documents. -/
theorem cache_roundtrip (docs : List PageDoc) :
    (docs.map fun d => (d.page, d.text)).map (fun pt => (⟨pt.1, pt.2⟩ : PageDoc)) = docs := by
  induction docs with
  | nil => rfl
  | cons d ds ih => simp [ih]

/-- A run of the per-group loop over groups none of which is checkpointed:
every group is extracted, appended, and checkpointed in order. -/
theorem extractLoop_all_new (client : OcrClient) (pdf_name : String) :
    ∀ (splits : List (List PageImage × Nat)) (progress : Progress)
      (acc : List PageDoc) (calls : List (Nat × PageImage)),
      (∀ p ∈ splits, Progress.find progress ⟨pdf_name, p.2⟩ = none) →
      (splits.map Prod.snd).Nodup →
      extractLoop client pdf_name splits progress acc calls =
        (acc ++ splits.flatMap (fun p => _extract_split client p.1 p.2),
         progress ++ splits.map (groupEntry client pdf_name),
         calls ++ splits.flatMap (fun p => _extract_split_calls p.1 p.2)) := by
  intro splits
  induction splits with
  | nil => intro progress acc calls _ _; simp [extractLoop]
  | cons sp rest ih =>
    intro progress acc calls hnone hnd
    rcases sp with ⟨split, page_offset⟩
    rw [extractLoop]
    rw [hnone (split, page_offset) (List.mem_cons_self _ _)]
    dsimp only
    rw [ih (progress ++ [((⟨pdf_name, page_offset⟩ : SplitKey),
          (_extract_split client split page_offset).map fun d => (d.page, d.text))])
        (acc ++ _extract_split client split page_offset)
        (calls ++ _extract_split_calls split page_offset) ?hnone2 ?hnd2]
    case hnone2 =>
      intro p hp
      rw [progress_find_append, hnone p (List.mem_cons_of_mem _ hp)]
      have hne : page_offset ≠ p.2 := by
        rw [List.map_cons, List.nodup_cons] at hnd
        intro he
        have hmm : p.2 ∈ rest.map Prod.snd := List.mem_map_of_mem Prod.snd hp
        exact hnd.1 (by rw [he]; exact hmm)
      unfold Progress.find
      simp [List.find?_cons, SplitKey.mk.injEq, hne]
    case hnd2 =>
      rw [List.map_cons, List.nodup_cons] at hnd
      exact hnd.2
    simp [groupEntry, List.append_assoc]

/-- A run of the per-group loop whose leading groups are all checkpointed
with exactly their extraction results: the cached groups are reloaded (no OCR
call, no progress change) and the loop continues on the remaining groups. -/
theorem extractLoop_cached (client : OcrClient) (pdf_name : String) :
    ∀ (A B : List (List PageImage × Nat)) (progress : Progress)
      (acc : List PageDoc) (calls : List (Nat × PageImage)),
      (∀ p ∈ A, Progress.find progress ⟨pdf_name, p.2⟩ =
         some ((_extract_split client p.1 p.2).map fun d => (d.page, d.text))) →
      extractLoop client pdf_name (A ++ B) progress acc calls =
        extractLoop client pdf_name B progress
          (acc ++ A.flatMap (fun p => _extract_split client p.1 p.2)) calls := by
  intro A
  induction A with
  | nil => intro B progress acc calls _; simp
  | cons sp rest ih =>
    intro B progress acc calls hsome
    rcases sp with ⟨split, page_offset⟩
    rw [List.cons_append, extractLoop]
    rw [hsome (split, page_offset) (List.mem_cons_self _ _)]
    dsimp only
    rw [cache_roundtrip]
    rw [ih B progress (acc ++ _extract_split client split page_offset) calls
        (fun p hp => hsome p (List.mem_cons_of_mem _ hp))]
    simp [List.append_assoc]

/-- Looking up a group's key in a checkpoint made of group entries with
pairwise-distinct offsets finds that group's own entry. -/
theorem find_map_entry_mem (client : OcrClient) (pdf_name : String) :
    ∀ (A : List (List PageImage × Nat)) (p : List PageImage × Nat),
      (A.map Prod.snd).Nodup → p ∈ A →
      Progress.find (A.map (groupEntry client pdf_name)) ⟨pdf_name, p.2⟩ =
        some ((_extract_split client p.1 p.2).map fun d => (d.page, d.text)) := by
  intro A
  induction A with
  | nil => intro p _ h; cases h
  | cons a rest ih =>
    intro p hnd hmem
    rcases List.mem_cons.mp hmem with rfl | hmem'
    · unfold Progress.find
      rw [List.map_cons]
      simp [List.find?_cons, groupEntry]
    · have hne : a.2 ≠ p.2 := by
        rw [List.map_cons, List.nodup_cons] at hnd
        intro he
        have hmm : p.2 ∈ rest.map Prod.snd := List.mem_map_of_mem Prod.snd hmem'
        exact hnd.1 (by rw [he]; exact hmm)
      have htail := ih p (by rw [List.map_cons, List.nodup_cons] at hnd; exact hnd.2) hmem'
      unfold Progress.find at htail ⊢
      rw [List.map_cons, List.find?_cons]
      simp only [groupEntry, SplitKey.mk.injEq]
      rw [show decide (True ∧ a.2 = p.2) = false from by simp [hne]]
      exact htail

/-- A key whose offset belongs to no entry of the checkpoint is absent. -/
theorem find_map_entry_not_mem (client : OcrClient) (pdf_name : String) :
    ∀ (A : List (List PageImage × Nat)) (o : Nat), o ∉ A.map Prod.snd →
      Progress.find (A.map (groupEntry client pdf_name)) ⟨pdf_name, o⟩ = none := by
  intro A
  induction A with
  | nil => intro o _; rfl
  | cons a rest ih =>
    intro o ho
    have hne : a.2 ≠ o := by
      intro he
      exact ho (by rw [← he]; exact List.mem_map_of_mem Prod.snd (List.mem_cons_self _ _))
    have htail := ih o (fun hmm => ho (List.mem_cons_of_mem _ hmm))
    unfold Progress.find at htail ⊢
    rw [List.map_cons, List.find?_cons]
    simp only [groupEntry, SplitKey.mk.injEq]
    rw [show decide (True ∧ a.2 = o) = false from by simp [hne]]
    exact htail

/-- C4: interrupting `extract_scanned_pdf` after `N` of the `M` page groups
have been checkpointed and re-running it yields the same final
ordered-by-page document list as an uninterrupted run; the resumed run's OCR
calls are exactly those of the groups after the first `N` — for every group
whose key is already in the progress file (exactly the first `N` groups, the
third conjunct) no OCR-model call is made, its cached text being reused. -/
theorem c4_resumable_extraction (client : OcrClient) (pdf_name : String)
    (pdf : List PageImage) (N : Nat) :
    (extract_scanned_pdf client pdf_name pdf (runFirstGroups client pdf_name pdf N)).1 =
      (extract_scanned_pdf client pdf_name pdf []).1 ∧
    (extract_scanned_pdf client pdf_name pdf (runFirstGroups client pdf_name pdf N)).2.2 =
      ((_split_pdf pdf).drop N).flatMap (fun p => _extract_split_calls p.1 p.2) ∧
    runFirstGroups client pdf_name pdf N =
      ((_split_pdf pdf).take N).map (groupEntry client pdf_name) := by
  have hnd : ((_split_pdf pdf).map Prod.snd).Nodup := splitGroupsF_offsets_nodup _ _ _
  have hsplitmap : (_split_pdf pdf).map Prod.snd =
      ((_split_pdf pdf).take N).map Prod.snd ++ ((_split_pdf pdf).drop N).map Prod.snd := by
    rw [← List.map_append, List.take_append_drop]
  have hndT : (((_split_pdf pdf).take N).map Prod.snd).Nodup := by
    rw [hsplitmap] at hnd
    exact (List.nodup_append.mp hnd).1
  have hndD : (((_split_pdf pdf).drop N).map Prod.snd).Nodup := by
    rw [hsplitmap] at hnd
    exact (List.nodup_append.mp hnd).2.1
  have hdisj : ∀ o ∈ ((_split_pdf pdf).drop N).map Prod.snd,
      o ∉ ((_split_pdf pdf).take N).map Prod.snd := by
    rw [hsplitmap] at hnd
    intro o hoD hoT
    exact (List.nodup_append.mp hnd).2.2 hoT hoD
  have hprN : runFirstGroups client pdf_name pdf N =
      ((_split_pdf pdf).take N).map (groupEntry client pdf_name) := by
    unfold runFirstGroups
    rw [extractLoop_all_new client pdf_name ((_split_pdf pdf).take N) [] [] []
        (fun p _ => rfl) hndT]
    simp
  refine ⟨?_, ?_, hprN⟩
  all_goals
    unfold extract_scanned_pdf
    rw [hprN]
    rw [show extractLoop client pdf_name (_split_pdf pdf)
          (((_split_pdf pdf).take N).map (groupEntry client pdf_name)) [] [] =
        extractLoop client pdf_name ((_split_pdf pdf).take N ++ (_split_pdf pdf).drop N)
          (((_split_pdf pdf).take N).map (groupEntry client pdf_name)) [] [] from by
      rw [List.take_append_drop]]
    rw [extractLoop_cached client pdf_name ((_split_pdf pdf).take N) ((_split_pdf pdf).drop N)
        _ [] [] (fun p hp => find_map_entry_mem client pdf_name _ p hndT hp)]
    rw [extractLoop_all_new client pdf_name ((_split_pdf pdf).drop N) _ _ []
        (fun p hp => find_map_entry_not_mem client pdf_name _ p.2
          (hdisj p.2 (List.mem_map_of_mem Prod.snd hp))) hndD]
  · -- documents equal
    rw [extractLoop_all_new client pdf_name (_split_pdf pdf) [] [] [] (fun p _ => rfl) hnd]
    dsimp only
    rw [List.nil_append, List.nil_append, ← List.flatMap_append, List.take_append_drop]
  · rfl

/-- Every piece of the hard character cut is at most `size` characters. -/
theorem hardCutF_length_le (size : Nat) (hsize : 0 < size) :
    ∀ (fuel : Nat) (t : List Char) (p : List Char),
      p ∈ hardCutF fuel size t → p.length ≤ size := by
  intro fuel
  induction fuel with
  | zero => intro t p hp; cases t <;> simp [hardCutF] at hp
  | succ fuel ih =>
    intro t p hp
    cases t with
    | nil => simp [hardCutF] at hp
    | cons c rest =>
      rw [hardCutF] at hp
      rcases List.mem_cons.mp hp with rfl | hp'
      · simp [List.length_take]
        omega
      · exact ih _ p hp'

/-- Every piece of the recursive split is at most `size` characters: a piece
that no separator can shorten is hard-cut. -/
theorem splitPieces_length_le (size : Nat) (hsize : 0 < size) :
    ∀ (seps : List (List Char)) (text : List Char) (p : List Char),
      p ∈ splitPieces size seps text → p.length ≤ size := by
  intro seps
  induction seps with
  | nil =>
    intro text p hp
    cases text with
    | nil => simp [splitPieces] at hp
    | cons c cs =>
      rw [splitPieces] at hp
      by_cases hle : (c :: cs).length ≤ size
      · rw [if_pos hle] at hp
        simp at hp
        subst hp
        exact hle
      · rw [if_neg hle] at hp
        exact hardCutF_length_le size hsize _ _ _ hp
  | cons sep seps ih =>
    intro text p hp
    cases text with
    | nil => simp [splitPieces] at hp
    | cons c cs =>
      rw [splitPieces] at hp
      by_cases hle : (c :: cs).length ≤ size
      · rw [if_pos hle] at hp
        simp at hp
        subst hp
        exact hle
      · rw [if_neg hle] at hp
        by_cases hsep : sep = []
        · rw [if_pos hsep] at hp
          exact hardCutF_length_le size hsize _ _ _ hp
        · rw [if_neg hsep] at hp
          rcases List.mem_flatMap.mp hp with ⟨piece, _, hmem⟩
          exact ih piece p hmem

/-- The merge step never produces a chunk over `size`: pieces are appended to
the current chunk (with the overlap tail carried over) only while they fit. -/
theorem mergeGo_length_le (size overlap : Nat) :
    ∀ (ps : List (List Char)) (cur : List Char),
      cur.length ≤ size → (∀ p ∈ ps, p.length ≤ size) →
      ∀ c ∈ mergeGo size overlap cur ps, c.length ≤ size := by
  intro ps
  induction ps with
  | nil =>
    intro cur hcur _ c hc
    rw [mergeGo] at hc
    simp at hc
    subst hc
    exact hcur
  | cons p rest ih =>
    intro cur hcur hps c hc
    rw [mergeGo] at hc
    by_cases h1 : cur.length + p.length ≤ size
    · rw [if_pos h1] at hc
      refine ih (cur ++ p) (by simp; omega) (fun q hq => hps q (List.mem_cons_of_mem _ hq)) c hc
    · rw [if_neg h1] at hc
      dsimp only at hc
      by_cases h2 : (cur.drop (cur.length - overlap)).length + p.length ≤ size
      · rw [if_pos h2] at hc
        rcases List.mem_cons.mp hc with rfl | hc'
        · exact hcur
        · exact ih _ (by simp [List.length_drop] at h2 ⊢; omega)
            (fun q hq => hps q (List.mem_cons_of_mem _ hq)) c hc'
      · rw [if_neg h2] at hc
        rcases List.mem_cons.mp hc with rfl | hc'
        · exact hcur
        · exact ih p (hps p (List.mem_cons_self _ _))
            (fun q hq => hps q (List.mem_cons_of_mem _ hq)) c hc'

/-- Every chunk of the configured splitter is at most `chunk_size`
characters long. -/
theorem chunkText_length_le (cfg : SplitterConfig) (hsize : 0 < cfg.chunk_size) :
    ∀ (text : List Char) (c : List Char),
      c ∈ chunkText cfg text → c.length ≤ cfg.chunk_size := by
  intro text c hc
  unfold chunkText at hc
  rcases hsp : splitPieces cfg.chunk_size cfg.separators text with _ | ⟨p, ps⟩ <;>
    rw [hsp] at hc
  · simp [mergePieces] at hc
  · rw [mergePieces] at hc
    have hall : ∀ q ∈ p :: ps, q.length ≤ cfg.chunk_size := by
      intro q hq
      exact splitPieces_length_le cfg.chunk_size hsize cfg.separators text q (hsp ▸ hq)
    exact mergeGo_length_le cfg.chunk_size cfg.chunk_overlap ps p
      (hall p (List.mem_cons_self _ _)) (fun q hq => hall q (List.mem_cons_of_mem _ hq)) c hc

/-- C7: `load_and_chunk` configures the splitter with target size 1000,
overlap 100 and the separator priority paragraph break, line break, space,
hard cut; every chunk it produces (and every chunk of the splitter on any
text) is at most 1000 characters long — the hard-cut final separator means
even an unsplittable token is cut to the target size, so the claim's
tolerance (and its unsplittable-token exception) is never needed. -/
theorem c7_chunk_size_bound :
    text_splitter = ⟨1000, 100, [['\n', '\n'], ['\n'], [' '], []]⟩ ∧
    (∀ (text c : List Char), c ∈ chunkText text_splitter text → c.length ≤ 1000) ∧
    (∀ (pdf_name : String) (docs : List (List Char × Nat)) (ch : Chunk),
       ch ∈ load_and_chunk_chunks pdf_name docs → ch.text.length ≤ 1000) := by
  refine ⟨rfl, fun text c hc => chunkText_length_le text_splitter (by norm_num [text_splitter]) text c hc, ?_⟩
  intro pdf_name docs ch hch
  unfold load_and_chunk_chunks at hch
  rcases List.mem_map.mp hch with ⟨⟨i, td⟩, hmem, rfl⟩
  have htd : (i, td) ∈ (split_documents text_splitter docs).enum := hmem
  have htd2 : td ∈ split_documents text_splitter docs :=
    List.getElem?_mem (List.mem_enum_iff_getElem?.mp htd)
  unfold split_documents at htd2
  rcases List.mem_flatMap.mp htd2 with ⟨d, _, hmm⟩
  rcases List.mem_map.mp hmm with ⟨t, ht, rfl⟩
  exact chunkText_length_le text_splitter (by norm_num [text_splitter]) d.1 t ht

/-- C7 witness: a two-character text chunks to itself, within the bound. -/
theorem c7_chunk_size_bound_witness : ("ab".toList).length ≤ 1000 :=
  c7_chunk_size_bound.2.1 "ab".toList "ab".toList (by decide)
